import Mathlib

/-!
# KSZ8041 PHY driver (`src/phy/fsl_phyksz8041.c`)

A shallow embedding of the six driver operations.  Every operation is a
sequence of MDIO transactions; the embedding threads the transaction history
of the bus through each call, so that both the returned status and the exact
transactions issued can be stated.

Conventions
* `status_t` is `Int`; register numbers, addresses and register values
  (`uint32_t`) are `Nat`.
* The constants of the headers (`fsl_phyksz8041.h`, `fsl_phy.h`,
  `fsl_common.h`) are not part of the sources and are taken as a parameter
  `PhyDefs`.
* Out-parameters (`bool *status`, `phy_speed_t *speed`, `phy_duplex_t *duplex`)
  are passed in with their old content and returned with their new content.
* `assert(status)` / `assert(duplex)` check that a pointer is not null; the
  embedding has no null pointers.
-/

namespace KSZ8041

/-! ## Data model -/

/-- Constants declared in the headers of the driver, which are not among the
sources: status codes, register numbers and bit masks.  They are a parameter of
every definition below. -/
structure PhyDefs where
  kStatus_Success : Int
  kStatus_Fail : Int
  kStatus_PHY_AutoNegotiateFail : Int
  PHY_CONTROL_ID1 : Nat
  PHY_BASICCONTROL_REG : Nat
  PHY_BASICSTATUS_REG : Nat
  PHY_ID1_REG : Nat
  PHY_AUTONEG_ADVERTISE_REG : Nat
  PHY_CONTROL1_REG : Nat
  PHY_CONTROL2_REG : Nat
  PHY_BCTL_DUPLEX_MASK : Nat
  PHY_BCTL_RESTART_AUTONEG_MASK : Nat
  PHY_BCTL_AUTONEG_MASK : Nat
  PHY_BCTL_SPEED0_MASK : Nat
  PHY_BCTL_LOOP_MASK : Nat
  PHY_BCTL_RESET_MASK : Nat
  PHY_CTL1_REMOTELOOP_MASK : Nat
  PHY_CTL2_10HALFDUPLEX_MASK : Nat
  PHY_CTL2_100HALFDUPLEX_MASK : Nat
  PHY_CTL2_10FULLDUPLEX_MASK : Nat
  PHY_CTL2_100FULLDUPLEX_MASK : Nat
  PHY_BSTATUS_LINKSTATUS_MASK : Nat
  PHY_BSTATUS_AUTONEGCOMP_MASK : Nat
  PHY_BSTATUS_SPEEDUPLX_MASK : Nat
  PHY_100BASETX_FULLDUPLEX_MASK : Nat
  PHY_100BASETX_HALFDUPLEX_MASK : Nat
  PHY_10BASETX_FULLDUPLEX_MASK : Nat
  PHY_10BASETX_HALFDUPLEX_MASK : Nat

/-- The timeout macro, `#define PHY_TIMEOUT_COUNT 100000`. -/
def PHY_TIMEOUT_COUNT : Nat := 100000

/-- Loop modes, `phy_loop_t`. -/
inductive phy_loop_t
  | kPHY_LocalLoop
  | kPHY_RemoteLoop
deriving DecidableEq

/-- Link speeds, `phy_speed_t`. -/
inductive phy_speed_t
  | kPHY_Speed10M
  | kPHY_Speed100M
deriving DecidableEq

/-- Duplex modes, `phy_duplex_t`. -/
inductive phy_duplex_t
  | kPHY_HalfDuplex
  | kPHY_FullDuplex
deriving DecidableEq

/-- One call into the bus transport. -/
inductive MdioEvent
  | init
  | read (phyAddr devAddr : Nat)
  | write (phyAddr devAddr data : Nat)
deriving DecidableEq

/-- Modelled from the spec: the bus transport (`mdio_handle_t` with `MDIO_Init`,
`MDIO_Read`, `MDIO_Write`) is an external collaborator and not among the
sources.  A transport answers each transaction as a function of the
transactions issued on it so far, which covers every deterministic transport.
A read answers with a status and the value it leaves in `*dataPtr`; a write
answers with a status. -/
structure mdio_handle_t where
  read : List MdioEvent → Nat → Nat → Int × Nat
  write : List MdioEvent → Nat → Nat → Nat → Int

/-- The handle, `phy_handle_t`: bus address and transport reference. -/
structure phy_handle_t where
  phyAddr : Nat
  mdioHandle : mdio_handle_t

/-- The configuration, `phy_config_t`: only the bus address is used. -/
structure phy_config_t where
  phyAddr : Nat

/-- Modelled from the spec: `MDIO_Init`, the delegated transport
initialisation; it returns nothing and is recorded in the history. -/
def MDIO_Init (_h : mdio_handle_t) (log : List MdioEvent) : List MdioEvent :=
  log ++ [MdioEvent.init]

/-- Modelled from the spec: `MDIO_Write(handle, phyAddr, devAddr, data)`, one
write transaction; returns the transport status and the extended history. -/
def MDIO_Write (h : mdio_handle_t) (phyAddr devAddr data : Nat) (log : List MdioEvent) :
    Int × List MdioEvent :=
  (h.write log phyAddr devAddr data, log ++ [MdioEvent.write phyAddr devAddr data])

/-- Modelled from the spec: `MDIO_Read(handle, phyAddr, devAddr, dataPtr)`, one
read transaction; returns the transport status, the content of `*dataPtr` after
the call, and the extended history. -/
def MDIO_Read (h : mdio_handle_t) (phyAddr devAddr : Nat) (log : List MdioEvent) :
    Int × Nat × List MdioEvent :=
  ((h.read log phyAddr devAddr).1, (h.read log phyAddr devAddr).2,
    log ++ [MdioEvent.read phyAddr devAddr])

/-- The C operator `~` on a `uint32_t`: all 32 bits toggled. -/
def not32 (x : Nat) : Nat := (x % 4294967296) ^^^ 4294967295

/-! ## PHY_KSZ8041_Init -/

/-- State after the identification loop of `PHY_KSZ8041_Init`. -/
structure IdLoopState where
  idReg : Nat
  counter : Nat
  log : List MdioEvent

/-- The identification loop
`while ((idReg != PHY_CONTROL_ID1) && (counter != 0)) { MDIO_Read(.., PHY_ID1_REG, &idReg); counter--; }`.
The status of the read is discarded by the source. -/
def idLoop (c : PhyDefs) (handle : phy_handle_t) : Nat → Nat → List MdioEvent → IdLoopState
  | 0, idReg, log => { idReg := idReg, counter := 0, log := log }
  | counter + 1, idReg, log =>
    if idReg ≠ c.PHY_CONTROL_ID1 then
      let r := MDIO_Read handle.mdioHandle handle.phyAddr c.PHY_ID1_REG log
      idLoop c handle counter r.2.1 r.2.2
    else
      { idReg := idReg, counter := counter + 1, log := log }

/-- State after the autonegotiation loop: `returned` holds the value of a
`return` executed inside the loop, `result` and `counter` are the locals. -/
structure AutoNegLoopState where
  returned : Option Int
  result : Int
  counter : Nat
  log : List MdioEvent

/-- The autonegotiation loop
`while (counter--) { result = MDIO_Read(.., PHY_BASICSTATUS_REG, &bssReg); if (result == kStatus_Success) { if ((bssReg & PHY_BSTATUS_AUTONEGCOMP_MASK) != 0) break; } if (!counter) return kStatus_PHY_AutoNegotiateFail; }`.
When the loop condition is evaluated at `counter == 0` the post-decrement wraps
the `uint32_t` counter to `2^32 - 1` and the loop is left. -/
def autoNegLoop (c : PhyDefs) (handle : phy_handle_t) :
    Nat → Int → List MdioEvent → AutoNegLoopState
  | 0, result, log =>
    { returned := none, result := result, counter := 4294967295, log := log }
  | counter + 1, _result, log =>
    let r := MDIO_Read handle.mdioHandle handle.phyAddr c.PHY_BASICSTATUS_REG log
    if r.1 = c.kStatus_Success ∧ r.2.1 &&& c.PHY_BSTATUS_AUTONEGCOMP_MASK ≠ 0 then
      { returned := none, result := r.1, counter := counter, log := r.2.2 }
    else if counter = 0 then
      { returned := some c.kStatus_PHY_AutoNegotiateFail, result := r.1, counter := counter,
        log := r.2.2 }
    else
      autoNegLoop c handle counter r.1 r.2.2

/-- Result of `PHY_KSZ8041_Init`: returned status, the handle as left by the
call, and the transaction history. -/
structure InitResult where
  status : Int
  handle : phy_handle_t
  log : List MdioEvent

/-- The value written to the autonegotiation-advertisement register. -/
def advertiseValue (c : PhyDefs) : Nat :=
  c.PHY_100BASETX_FULLDUPLEX_MASK ||| c.PHY_100BASETX_HALFDUPLEX_MASK |||
    c.PHY_10BASETX_FULLDUPLEX_MASK ||| c.PHY_10BASETX_HALFDUPLEX_MASK ||| 1

/-- `status_t PHY_KSZ8041_Init(phy_handle_t *handle, const phy_config_t *config)`. -/
def PHY_KSZ8041_Init (c : PhyDefs) (handle : phy_handle_t) (config : phy_config_t)
    (log : List MdioEvent) : InitResult :=
  let log1 := MDIO_Init handle.mdioHandle log
  let handle1 : phy_handle_t := { handle with phyAddr := config.phyAddr }
  let s := idLoop c handle1 PHY_TIMEOUT_COUNT 0 log1
  if s.counter = 0 then
    { status := c.kStatus_Fail, handle := handle1, log := s.log }
  else
    let w1 := MDIO_Write handle1.mdioHandle handle1.phyAddr c.PHY_BASICCONTROL_REG
      c.PHY_BCTL_RESET_MASK s.log
    if w1.1 = c.kStatus_Success then
      let w2 := MDIO_Write handle1.mdioHandle handle1.phyAddr c.PHY_AUTONEG_ADVERTISE_REG
        (advertiseValue c) w1.2
      if w2.1 = c.kStatus_Success then
        let w3 := MDIO_Write handle1.mdioHandle handle1.phyAddr c.PHY_BASICCONTROL_REG
          (c.PHY_BCTL_AUTONEG_MASK ||| c.PHY_BCTL_RESTART_AUTONEG_MASK) w2.2
        if w3.1 = c.kStatus_Success then
          let a := autoNegLoop c handle1 PHY_TIMEOUT_COUNT w3.1 w3.2
          match a.returned with
          | some r => { status := r, handle := handle1, log := a.log }
          | none => { status := a.result, handle := handle1, log := a.log }
        else
          { status := w3.1, handle := handle1, log := w3.2 }
      else
        { status := w2.1, handle := handle1, log := w2.2 }
    else
      { status := w1.1, handle := handle1, log := w1.2 }

/-! ## Raw register access -/

/-- `status_t PHY_KSZ8041_Write(phy_handle_t *handle, uint32_t phyReg, uint32_t data)`. -/
def PHY_KSZ8041_Write (handle : phy_handle_t) (phyReg data : Nat) (log : List MdioEvent) :
    Int × List MdioEvent :=
  MDIO_Write handle.mdioHandle handle.phyAddr phyReg data log

/-- `status_t PHY_KSZ8041_Read(phy_handle_t *handle, uint32_t phyReg, uint32_t *dataPtr)`. -/
def PHY_KSZ8041_Read (handle : phy_handle_t) (phyReg : Nat) (log : List MdioEvent) :
    Int × Nat × List MdioEvent :=
  MDIO_Read handle.mdioHandle handle.phyAddr phyReg log

/-! ## Loopback control -/

/-- `status_t PHY_KSZ8041_EnableLoopback(phy_handle_t *handle, phy_loop_t mode, phy_speed_t speed, bool enable)`. -/
def PHY_KSZ8041_EnableLoopback (c : PhyDefs) (handle : phy_handle_t) (mode : phy_loop_t)
    (speed : phy_speed_t) (enable : Bool) (log : List MdioEvent) : Int × List MdioEvent :=
  if enable then
    if mode = phy_loop_t.kPHY_LocalLoop then
      let data :=
        if speed = phy_speed_t.kPHY_Speed100M then
          c.PHY_BCTL_SPEED0_MASK ||| c.PHY_BCTL_DUPLEX_MASK ||| c.PHY_BCTL_LOOP_MASK
        else
          c.PHY_BCTL_DUPLEX_MASK ||| c.PHY_BCTL_LOOP_MASK
      MDIO_Write handle.mdioHandle handle.phyAddr c.PHY_BASICCONTROL_REG data log
    else
      let r := MDIO_Read handle.mdioHandle handle.phyAddr c.PHY_CONTROL1_REG log
      if r.1 = c.kStatus_Success then
        MDIO_Write handle.mdioHandle handle.phyAddr c.PHY_CONTROL1_REG
          (r.2.1 ||| c.PHY_CTL1_REMOTELOOP_MASK) r.2.2
      else
        (r.1, r.2.2)
  else
    if mode = phy_loop_t.kPHY_LocalLoop then
      let r := MDIO_Read handle.mdioHandle handle.phyAddr c.PHY_BASICCONTROL_REG log
      if r.1 = c.kStatus_Success then
        let data := r.2.1 &&& not32 c.PHY_BCTL_LOOP_MASK
        MDIO_Write handle.mdioHandle handle.phyAddr c.PHY_BASICCONTROL_REG
          (data ||| c.PHY_BCTL_RESTART_AUTONEG_MASK) r.2.2
      else
        (r.1, r.2.2)
    else
      let r := MDIO_Read handle.mdioHandle handle.phyAddr c.PHY_CONTROL1_REG log
      if r.1 = c.kStatus_Success then
        MDIO_Write handle.mdioHandle handle.phyAddr c.PHY_CONTROL1_REG
          (r.2.1 &&& not32 c.PHY_CTL1_REMOTELOOP_MASK) r.2.2
      else
        (r.1, r.2.2)

/-! ## Link status and speed/duplex -/

/-- Result of `PHY_KSZ8041_GetLinkStatus`: returned status, content of
`*status` after the call, and the transaction history. -/
structure LinkStatusResult where
  result : Int
  status : Bool
  log : List MdioEvent

/-- `status_t PHY_KSZ8041_GetLinkStatus(phy_handle_t *handle, bool *status)`;
the argument `status` is the content of `*status` before the call. -/
def PHY_KSZ8041_GetLinkStatus (c : PhyDefs) (handle : phy_handle_t) (status : Bool)
    (log : List MdioEvent) : LinkStatusResult :=
  let r := MDIO_Read handle.mdioHandle handle.phyAddr c.PHY_BASICSTATUS_REG log
  if r.1 = c.kStatus_Success then
    if ¬ (c.PHY_BSTATUS_LINKSTATUS_MASK &&& r.2.1 ≠ 0) then
      { result := r.1, status := false, log := r.2.2 }
    else
      { result := r.1, status := true, log := r.2.2 }
  else
    { result := r.1, status := status, log := r.2.2 }

/-- Result of `PHY_KSZ8041_GetLinkSpeedDuplex`: returned status, content of
`*speed` and `*duplex` after the call, and the transaction history. -/
structure SpeedDuplexResult where
  result : Int
  speed : phy_speed_t
  duplex : phy_duplex_t
  log : List MdioEvent

/-- `status_t PHY_KSZ8041_GetLinkSpeedDuplex(phy_handle_t *handle, phy_speed_t *speed, phy_duplex_t *duplex)`;
the arguments `speed` and `duplex` are the contents of `*speed` and `*duplex`
before the call. -/
def PHY_KSZ8041_GetLinkSpeedDuplex (c : PhyDefs) (handle : phy_handle_t) (speed : phy_speed_t)
    (duplex : phy_duplex_t) (log : List MdioEvent) : SpeedDuplexResult :=
  let r := MDIO_Read handle.mdioHandle handle.phyAddr c.PHY_CONTROL2_REG log
  if r.1 = c.kStatus_Success then
    let ctlReg := r.2.1
    let data := ctlReg &&& c.PHY_BSTATUS_SPEEDUPLX_MASK
    let duplex1 :=
      if c.PHY_CTL2_10FULLDUPLEX_MASK = data ∨ c.PHY_CTL2_100FULLDUPLEX_MASK = data then
        phy_duplex_t.kPHY_FullDuplex
      else
        phy_duplex_t.kPHY_HalfDuplex
    let data := ctlReg &&& c.PHY_BSTATUS_SPEEDUPLX_MASK
    let speed1 :=
      if c.PHY_CTL2_100HALFDUPLEX_MASK = data ∨ c.PHY_CTL2_100FULLDUPLEX_MASK = data then
        phy_speed_t.kPHY_Speed100M
      else
        phy_speed_t.kPHY_Speed10M
    { result := r.1, speed := speed1, duplex := duplex1, log := r.2.2 }
  else
    { result := r.1, speed := speed, duplex := duplex, log := r.2.2 }

/-! ## Observers on transaction histories -/

/-- Whether a transaction is a write. -/
def isWrite : MdioEvent → Bool
  | MdioEvent.write _ _ _ => true
  | _ => false

/-- Whether a transaction is a read. -/
def isRead : MdioEvent → Bool
  | MdioEvent.read _ _ => true
  | _ => false

/-- Whether a transaction is a read of register `reg`. -/
def isReadOf (reg : Nat) : MdioEvent → Bool
  | MdioEvent.read _ r => r == reg
  | _ => false

/-- Number of write transactions in a history. -/
def writeCount (log : List MdioEvent) : Nat := log.countP isWrite

/-- Number of read transactions in a history. -/
def readCount (log : List MdioEvent) : Nat := log.countP isRead

/-- Number of reads of register `reg` in a history. -/
def readCountOf (reg : Nat) (log : List MdioEvent) : Nat := log.countP (isReadOf reg)

/-- The register a transaction addresses; `MDIO_Init` addresses none. -/
def eventReg : MdioEvent → Option Nat
  | MdioEvent.init => none
  | MdioEvent.read _ r => some r
  | MdioEvent.write _ r _ => some r

/-- The transactions a call appended to the history `before`. -/
def issued (before after : List MdioEvent) : List MdioEvent := after.drop before.length

/-! ## Description of a run of PHY_KSZ8041_Init

A run of `PHY_KSZ8041_Init` at address `addr` started on history `log` issues
`MDIO_Init`, then polls of the ID1 register, then up to three configuration
writes, then polls of the basic-status register.  The definitions below name
the history at each of these points and the answer the transport gives there.
-/

/-- The poll of the ID1 register issued by Init. -/
def idRead (c : PhyDefs) (addr : Nat) : MdioEvent := MdioEvent.read addr c.PHY_ID1_REG

/-- The poll of the basic-status register issued by Init. -/
def bsRead (c : PhyDefs) (addr : Nat) : MdioEvent := MdioEvent.read addr c.PHY_BASICSTATUS_REG

/-- The three configuration writes of Init, in program order. -/
def initWrites (c : PhyDefs) (addr : Nat) : List MdioEvent :=
  [MdioEvent.write addr c.PHY_BASICCONTROL_REG c.PHY_BCTL_RESET_MASK,
   MdioEvent.write addr c.PHY_AUTONEG_ADVERTISE_REG (advertiseValue c),
   MdioEvent.write addr c.PHY_BASICCONTROL_REG
     (c.PHY_BCTL_AUTONEG_MASK ||| c.PHY_BCTL_RESTART_AUTONEG_MASK)]

/-- History after `MDIO_Init` and `k` polls of the ID1 register. -/
def idLog (c : PhyDefs) (addr : Nat) (log : List MdioEvent) (k : Nat) : List MdioEvent :=
  log ++ [MdioEvent.init] ++ List.replicate k (idRead c addr)

/-- Answer of the transport to the `(k+1)`-th poll of the ID1 register. -/
def idPoll (c : PhyDefs) (m : mdio_handle_t) (addr : Nat) (log : List MdioEvent) (k : Nat) :
    Int × Nat :=
  m.read (idLog c addr log k) addr c.PHY_ID1_REG

/-- Content of the local `idReg` after `k` polls: `0` before the first poll. -/
def idRegAfter (c : PhyDefs) (m : mdio_handle_t) (addr : Nat) (log : List MdioEvent) :
    Nat → Nat
  | 0 => 0
  | k + 1 => (idPoll c m addr log k).2

/-- History after `n` polls of the ID1 register and the first `j` configuration writes. -/
def cfgLog (c : PhyDefs) (addr : Nat) (log : List MdioEvent) (n j : Nat) : List MdioEvent :=
  idLog c addr log n ++ (initWrites c addr).take j

/-- Answer of the transport to the reset write, issued after `n` ID1 polls. -/
def resetWrite (c : PhyDefs) (m : mdio_handle_t) (addr : Nat) (log : List MdioEvent)
    (n : Nat) : Int :=
  m.write (cfgLog c addr log n 0) addr c.PHY_BASICCONTROL_REG c.PHY_BCTL_RESET_MASK

/-- Answer of the transport to the advertisement write. -/
def advertiseWrite (c : PhyDefs) (m : mdio_handle_t) (addr : Nat) (log : List MdioEvent)
    (n : Nat) : Int :=
  m.write (cfgLog c addr log n 1) addr c.PHY_AUTONEG_ADVERTISE_REG (advertiseValue c)

/-- Answer of the transport to the autonegotiation-enable write. -/
def autoNegWrite (c : PhyDefs) (m : mdio_handle_t) (addr : Nat) (log : List MdioEvent)
    (n : Nat) : Int :=
  m.write (cfgLog c addr log n 2) addr c.PHY_BASICCONTROL_REG
    (c.PHY_BCTL_AUTONEG_MASK ||| c.PHY_BCTL_RESTART_AUTONEG_MASK)

/-- History after `n` ID1 polls, the three writes and `k` basic-status polls. -/
def bsLog (c : PhyDefs) (addr : Nat) (log : List MdioEvent) (n k : Nat) : List MdioEvent :=
  cfgLog c addr log n 3 ++ List.replicate k (bsRead c addr)

/-- Answer of the transport to the `(k+1)`-th poll of the basic-status register. -/
def bsPoll (c : PhyDefs) (m : mdio_handle_t) (addr : Nat) (log : List MdioEvent) (n k : Nat) :
    Int × Nat :=
  m.read (bsLog c addr log n k) addr c.PHY_BASICSTATUS_REG

/-- The exit test of the autonegotiation loop on one answer: the read
succeeded and the autonegotiation-complete bit is set. -/
def autoNegDone (c : PhyDefs) (r : Int × Nat) : Prop :=
  r.1 = c.kStatus_Success ∧ r.2 &&& c.PHY_BSTATUS_AUTONEGCOMP_MASK ≠ 0

instance (c : PhyDefs) (r : Int × Nat) : Decidable (autoNegDone c r) := by
  unfold autoNegDone; infer_instance

/-- The ID1 polls of a run identify the chip after exactly `n` polls: `idReg`
differs from the identifier before each of the first `n` polls and equals it
after the `n`-th, with `n` below the poll limit, so that the writes are issued. -/
def IdFoundAfter (c : PhyDefs) (m : mdio_handle_t) (addr : Nat) (log : List MdioEvent)
    (n : Nat) : Prop :=
  n < PHY_TIMEOUT_COUNT ∧ (∀ k, k < n → idRegAfter c m addr log k ≠ c.PHY_CONTROL_ID1) ∧
    idRegAfter c m addr log n = c.PHY_CONTROL_ID1

/-- The handle as Init leaves it: the address of the configuration, the
transport reference unchanged. -/
def initHandle (handle : phy_handle_t) (config : phy_config_t) : phy_handle_t :=
  { handle with phyAddr := config.phyAddr }

/-! ## Sample constants and transport mocks -/

/-- A sample instance of the header constants, following the register map of
the KSZ8041 (clause-22 registers 0, 1, 2, 4 and the vendor registers 0x1E,
0x1F).  It is used to evaluate the driver on concrete inputs. -/
def ksz8041Defs : PhyDefs where
  kStatus_Success := 0
  kStatus_Fail := 1
  kStatus_PHY_AutoNegotiateFail := 4101
  PHY_CONTROL_ID1 := 0x22
  PHY_BASICCONTROL_REG := 0x00
  PHY_BASICSTATUS_REG := 0x01
  PHY_ID1_REG := 0x02
  PHY_AUTONEG_ADVERTISE_REG := 0x04
  PHY_CONTROL1_REG := 0x1E
  PHY_CONTROL2_REG := 0x1F
  PHY_BCTL_DUPLEX_MASK := 0x0100
  PHY_BCTL_RESTART_AUTONEG_MASK := 0x0200
  PHY_BCTL_AUTONEG_MASK := 0x1000
  PHY_BCTL_SPEED0_MASK := 0x2000
  PHY_BCTL_LOOP_MASK := 0x4000
  PHY_BCTL_RESET_MASK := 0x8000
  PHY_CTL1_REMOTELOOP_MASK := 0x0008
  PHY_CTL2_10HALFDUPLEX_MASK := 0x0004
  PHY_CTL2_100HALFDUPLEX_MASK := 0x0008
  PHY_CTL2_10FULLDUPLEX_MASK := 0x0014
  PHY_CTL2_100FULLDUPLEX_MASK := 0x0018
  PHY_BSTATUS_LINKSTATUS_MASK := 0x0004
  PHY_BSTATUS_AUTONEGCOMP_MASK := 0x0020
  PHY_BSTATUS_SPEEDUPLX_MASK := 0x001C
  PHY_100BASETX_FULLDUPLEX_MASK := 0x0100
  PHY_100BASETX_HALFDUPLEX_MASK := 0x0080
  PHY_10BASETX_FULLDUPLEX_MASK := 0x0040
  PHY_10BASETX_HALFDUPLEX_MASK := 0x0020

/-- A transport mock that answers every read with `(rs, rv)` and every write
with `ws`. -/
def constMdio (rs : Int) (rv : Nat) (ws : Int) : mdio_handle_t where
  read := fun _ _ _ => (rs, rv)
  write := fun _ _ _ _ => ws

/-- A transport mock on which every transaction succeeds; the ID1 register
reads as the identifier once the history holds at least `idFrom` transactions
and as a different value before, the basic-status register reads with the
autonegotiation-complete bit once the history holds at least `bsFrom`
transactions and as `0` before, every other register reads as `0`. -/
def stepMdio (c : PhyDefs) (idFrom bsFrom : Nat) : mdio_handle_t where
  read := fun log _ reg =>
    if reg = c.PHY_ID1_REG then
      (c.kStatus_Success, if idFrom ≤ log.length then c.PHY_CONTROL_ID1 else c.PHY_CONTROL_ID1 + 1)
    else if reg = c.PHY_BASICSTATUS_REG then
      (c.kStatus_Success, if bsFrom ≤ log.length then c.PHY_BSTATUS_AUTONEGCOMP_MASK else 0)
    else (c.kStatus_Success, 0)
  write := fun _ _ _ _ => c.kStatus_Success

/-- A transport mock whose first read (history of length at most one) fails
with status `err`, leaving a value different from the identifier, and on which
every later transaction succeeds, the ID1 register reading as the identifier
and every other register with the autonegotiation-complete bit. -/
def flakyMdio (c : PhyDefs) (err : Int) : mdio_handle_t where
  read := fun log _ reg =>
    if log.length ≤ 1 then (err, c.PHY_CONTROL_ID1 + 1)
    else if reg = c.PHY_ID1_REG then (c.kStatus_Success, c.PHY_CONTROL_ID1)
    else (c.kStatus_Success, c.PHY_BSTATUS_AUTONEGCOMP_MASK)
  write := fun _ _ _ _ => c.kStatus_Success

/-- A transport mock on which every transaction succeeds, the ID1 register
reads as the identifier and every other register reads as `0`. -/
def idleMdio (c : PhyDefs) : mdio_handle_t where
  read := fun _ _ reg =>
    if reg = c.PHY_ID1_REG then (c.kStatus_Success, c.PHY_CONTROL_ID1) else (c.kStatus_Success, 0)
  write := fun _ _ _ _ => c.kStatus_Success

/-- The bus address a transaction is sent to; `MDIO_Init` has none. -/
def eventAddr : MdioEvent → Option Nat
  | MdioEvent.init => none
  | MdioEvent.read a _ => some a
  | MdioEvent.write a _ _ => some a

/-- The transactions of a run of Init at address `addr`: `MDIO_Init`, `n` polls
of the ID1 register, the first `j` configuration writes and `k` polls of the
basic-status register. -/
def initTrace (c : PhyDefs) (addr n j k : Nat) : List MdioEvent :=
  MdioEvent.init :: List.replicate n (idRead c addr) ++ (initWrites c addr).take j ++
    List.replicate k (bsRead c addr)

/-- A transport mock on which every transaction succeeds, the ID1 register
reads as the identifier, and the basic-status register reads with the
autonegotiation-complete bit exactly from its `bsFrom`-th read on (counted from
1 over the reads of that register in the history) and as `0` before. -/
def lateAutoNegMdio (c : PhyDefs) (bsFrom : Nat) : mdio_handle_t where
  read := fun log _ reg =>
    if reg = c.PHY_ID1_REG then (c.kStatus_Success, c.PHY_CONTROL_ID1)
    else if bsFrom ≤ readCountOf c.PHY_BASICSTATUS_REG log + 1 then
      (c.kStatus_Success, c.PHY_BSTATUS_AUTONEGCOMP_MASK)
    else (c.kStatus_Success, 0)
  write := fun _ _ _ _ => c.kStatus_Success

/-- Two transports that differ at most in the error codes of their failed
reads: they answer every write alike, leave the same value on every read, and
a read succeeds on one exactly when it succeeds on the other. -/
def SameUpToReadErrors (c : PhyDefs) (m m' : mdio_handle_t) : Prop :=
  (∀ log a r d, m.write log a r d = m'.write log a r d) ∧
  (∀ log a r, (m.read log a r).2 = (m'.read log a r).2) ∧
  (∀ log a r, (m.read log a r).1 = c.kStatus_Success ↔ (m'.read log a r).1 = c.kStatus_Success)

/-- Content of register `reg` of the device at address `addr` after the
history `log`, on a device that stores what is written: the value of the last
write to it, or its prior content `prior addr reg` when it was never written. -/
def regContent (prior : Nat → Nat → Nat) (log : List MdioEvent) (addr reg : Nat) : Nat :=
  log.foldl
    (fun v e =>
      match e with
      | MdioEvent.write a r d => if a = addr ∧ r = reg then d else v
      | _ => v)
    (prior addr reg)

/-- A transport that stores written values and returns them on later reads;
every transaction succeeds. -/
def memMdio (c : PhyDefs) (prior : Nat → Nat → Nat) : mdio_handle_t where
  read := fun log addr reg => (c.kStatus_Success, regContent prior log addr reg)
  write := fun _ _ _ _ => c.kStatus_Success

/-- A transport mock on which the first read of each register fails with
status `err` and every other transaction succeeds: the ID1 register leaves a
value different from the identifier on its failed read and the identifier
afterwards, every other register leaves the autonegotiation-complete bit. -/
def flakyReadsMdio (c : PhyDefs) (err : Int) : mdio_handle_t where
  read := fun log _ reg =>
    if readCountOf reg log = 0 then
      (err, if reg = c.PHY_ID1_REG then c.PHY_CONTROL_ID1 + 1 else c.PHY_BSTATUS_AUTONEGCOMP_MASK)
    else if reg = c.PHY_ID1_REG then (c.kStatus_Success, c.PHY_CONTROL_ID1)
    else (c.kStatus_Success, c.PHY_BSTATUS_AUTONEGCOMP_MASK)
  write := fun _ _ _ _ => c.kStatus_Success

/-- A transport mock whose reads of the ID1 register fail with status `err`
but leave the identifier in `*dataPtr`; every other read succeeds with the
autonegotiation-complete bit and every write succeeds. -/
def failedIdMdio (c : PhyDefs) (err : Int) : mdio_handle_t where
  read := fun _ _ reg =>
    if reg = c.PHY_ID1_REG then (err, c.PHY_CONTROL_ID1)
    else (c.kStatus_Success, c.PHY_BSTATUS_AUTONEGCOMP_MASK)
  write := fun _ _ _ _ => c.kStatus_Success

/-! ## The polling loops -/

theorem idLog_succ (c : PhyDefs) (addr : Nat) (log : List MdioEvent) (k : Nat) :
    idLog c addr log (k + 1) = idLog c addr log k ++ [idRead c addr] := by
  simp [idLog, List.replicate_succ']

theorem bsLog_succ (c : PhyDefs) (addr : Nat) (log : List MdioEvent) (n k : Nat) :
    bsLog c addr log n (k + 1) = bsLog c addr log n k ++ [bsRead c addr] := by
  simp [bsLog, List.replicate_succ']

/-- One iteration of the identification loop. -/
theorem idLoop_step (c : PhyDefs) (h : phy_handle_t) (counter idReg : Nat)
    (log : List MdioEvent) (hne : idReg ≠ c.PHY_CONTROL_ID1) :
    idLoop c h (counter + 1) idReg log =
      idLoop c h counter (h.mdioHandle.read log h.phyAddr c.PHY_ID1_REG).2
        (log ++ [idRead c h.phyAddr]) := by
  simp [idLoop, hne, MDIO_Read, idRead]

/-- The identification loop is left at once when `idReg` holds the identifier. -/
theorem idLoop_match (c : PhyDefs) (h : phy_handle_t) (counter : Nat) (log : List MdioEvent) :
    idLoop c h (counter + 1) c.PHY_CONTROL_ID1 log =
      { idReg := c.PHY_CONTROL_ID1, counter := counter + 1, log := log } := by
  simp [idLoop]

/-- While `idReg` differs from the identifier the loop performs `n` polls. -/
theorem idLoop_skip (c : PhyDefs) (h : phy_handle_t) (log : List MdioEvent) (n : Nat) :
    ∀ counter : Nat,
      (∀ k, k < n → idRegAfter c h.mdioHandle h.phyAddr log k ≠ c.PHY_CONTROL_ID1) →
      idLoop c h (counter + n) 0 (log ++ [MdioEvent.init]) =
        idLoop c h counter (idRegAfter c h.mdioHandle h.phyAddr log n)
          (idLog c h.phyAddr log n) := by
  induction n with
  | zero => intro counter _; simp [idLog, idRegAfter]
  | succ n ih =>
    intro counter hk
    have h1 := ih (counter + 1) (fun k hlt => hk k (Nat.lt_succ_of_lt hlt))
    have h2 : counter + (n + 1) = counter + 1 + n := by omega
    rw [h2, h1, idLoop_step c h counter _ _ (hk n (Nat.lt_succ_self n)), idLog_succ]
    rfl

/-- The identifier is found after `n` polls: the counter is left at
`PHY_TIMEOUT_COUNT - n`, which is not zero. -/
theorem idLoop_found (c : PhyDefs) (h : phy_handle_t) (log : List MdioEvent) (n : Nat)
    (hf : IdFoundAfter c h.mdioHandle h.phyAddr log n) :
    idLoop c h PHY_TIMEOUT_COUNT 0 (log ++ [MdioEvent.init]) =
      { idReg := c.PHY_CONTROL_ID1, counter := PHY_TIMEOUT_COUNT - n,
        log := idLog c h.phyAddr log n } := by
  obtain ⟨hn, hk, hm⟩ := hf
  have h2 : PHY_TIMEOUT_COUNT = (PHY_TIMEOUT_COUNT - n - 1 + 1) + n := by
    unfold PHY_TIMEOUT_COUNT at hn ⊢; omega
  have h3 : PHY_TIMEOUT_COUNT - n = PHY_TIMEOUT_COUNT - n - 1 + 1 := by
    unfold PHY_TIMEOUT_COUNT at hn ⊢; omega
  rw [h3]
  conv_lhs => rw [h2]
  rw [idLoop_skip c h log n _ hk, hm, idLoop_match]

/-- The counter is exhausted: after `PHY_TIMEOUT_COUNT` polls the loop is left
with `counter = 0`, whatever the last poll returned. -/
theorem idLoop_exhausted (c : PhyDefs) (h : phy_handle_t) (log : List MdioEvent)
    (hk : ∀ k, k < PHY_TIMEOUT_COUNT →
      idRegAfter c h.mdioHandle h.phyAddr log k ≠ c.PHY_CONTROL_ID1) :
    idLoop c h PHY_TIMEOUT_COUNT 0 (log ++ [MdioEvent.init]) =
      { idReg := idRegAfter c h.mdioHandle h.phyAddr log PHY_TIMEOUT_COUNT, counter := 0,
        log := idLog c h.phyAddr log PHY_TIMEOUT_COUNT } := by
  have h1 := idLoop_skip c h log PHY_TIMEOUT_COUNT 0 hk
  rw [Nat.zero_add] at h1
  rw [h1]
  simp [idLoop]

/-- The incoming value of `result` is overwritten by the first poll. -/
theorem autoNegLoop_result_irrel (c : PhyDefs) (h : phy_handle_t) (counter : Nat)
    (r r' : Int) (log : List MdioEvent) :
    autoNegLoop c h (counter + 1) r log = autoNegLoop c h (counter + 1) r' log := by
  simp [autoNegLoop]

/-- A poll that reports completion leaves the loop by `break`. -/
theorem autoNegLoop_done (c : PhyDefs) (h : phy_handle_t) (counter : Nat) (r : Int)
    (log : List MdioEvent)
    (hd : autoNegDone c (h.mdioHandle.read log h.phyAddr c.PHY_BASICSTATUS_REG)) :
    autoNegLoop c h (counter + 1) r log =
      { returned := none, result := c.kStatus_Success, counter := counter,
        log := log ++ [bsRead c h.phyAddr] } := by
  have hd' := hd
  unfold autoNegDone at hd'
  simp [autoNegLoop, MDIO_Read, bsRead, hd'.1, hd'.2]

/-- An unsuccessful poll with the counter not yet exhausted is followed by
another iteration. -/
theorem autoNegLoop_step (c : PhyDefs) (h : phy_handle_t) (counter : Nat) (r : Int)
    (log : List MdioEvent)
    (hd : ¬ autoNegDone c (h.mdioHandle.read log h.phyAddr c.PHY_BASICSTATUS_REG)) :
    autoNegLoop c h (counter + 1 + 1) r log =
      autoNegLoop c h (counter + 1) r (log ++ [bsRead c h.phyAddr]) := by
  unfold autoNegDone at hd
  rw [autoNegLoop]
  simp only [MDIO_Read]
  rw [if_neg hd, if_neg (Nat.succ_ne_zero counter)]
  exact autoNegLoop_result_irrel c h counter _ _ _

/-- An unsuccessful last poll returns `kStatus_PHY_AutoNegotiateFail`. -/
theorem autoNegLoop_last (c : PhyDefs) (h : phy_handle_t) (r : Int) (log : List MdioEvent)
    (hd : ¬ autoNegDone c (h.mdioHandle.read log h.phyAddr c.PHY_BASICSTATUS_REG)) :
    autoNegLoop c h 1 r log =
      { returned := some c.kStatus_PHY_AutoNegotiateFail,
        result := (h.mdioHandle.read log h.phyAddr c.PHY_BASICSTATUS_REG).1, counter := 0,
        log := log ++ [bsRead c h.phyAddr] } := by
  unfold autoNegDone at hd
  rw [autoNegLoop]
  simp only [MDIO_Read]
  rw [if_neg hd]
  simp [bsRead]

/-- While the polls are unsuccessful and the counter stays positive the loop
performs `n` polls. -/
theorem autoNegLoop_skip (c : PhyDefs) (h : phy_handle_t) (base : List MdioEvent) (r : Int)
    (n : Nat) :
    ∀ counter : Nat,
      (∀ k, k < n → ¬ autoNegDone c
        (h.mdioHandle.read (base ++ List.replicate k (bsRead c h.phyAddr)) h.phyAddr
          c.PHY_BASICSTATUS_REG)) →
      autoNegLoop c h (counter + 1 + n) r base =
        autoNegLoop c h (counter + 1) r (base ++ List.replicate n (bsRead c h.phyAddr)) := by
  induction n with
  | zero => intro counter _; simp
  | succ n ih =>
    intro counter hk
    have h1 := ih (counter + 1) (fun k hlt => hk k (Nat.lt_succ_of_lt hlt))
    have h2 : counter + 1 + (n + 1) = counter + 1 + 1 + n := by omega
    rw [h2, h1, autoNegLoop_step c h counter r _ (hk n (Nat.lt_succ_self n))]
    simp [List.replicate_succ']

/-- The `(j+1)`-th poll is the first to report completion, within the limit. -/
theorem autoNegLoop_found (c : PhyDefs) (h : phy_handle_t) (base : List MdioEvent) (r : Int)
    (j : Nat) (hj : j < PHY_TIMEOUT_COUNT)
    (hk : ∀ k, k < j → ¬ autoNegDone c
      (h.mdioHandle.read (base ++ List.replicate k (bsRead c h.phyAddr)) h.phyAddr
        c.PHY_BASICSTATUS_REG))
    (hd : autoNegDone c
      (h.mdioHandle.read (base ++ List.replicate j (bsRead c h.phyAddr)) h.phyAddr
        c.PHY_BASICSTATUS_REG)) :
    autoNegLoop c h PHY_TIMEOUT_COUNT r base =
      { returned := none, result := c.kStatus_Success, counter := PHY_TIMEOUT_COUNT - 1 - j,
        log := base ++ List.replicate (j + 1) (bsRead c h.phyAddr) } := by
  have h2 : PHY_TIMEOUT_COUNT = (PHY_TIMEOUT_COUNT - 1 - j) + 1 + j := by
    unfold PHY_TIMEOUT_COUNT at hj ⊢; omega
  conv_lhs => rw [h2]
  rw [autoNegLoop_skip c h base r j _ hk, autoNegLoop_done c h _ r _ hd]
  simp [List.replicate_succ']

/-- No poll reports completion within the limit. -/
theorem autoNegLoop_exhausted (c : PhyDefs) (h : phy_handle_t) (base : List MdioEvent)
    (r : Int)
    (hk : ∀ k, k < PHY_TIMEOUT_COUNT → ¬ autoNegDone c
      (h.mdioHandle.read (base ++ List.replicate k (bsRead c h.phyAddr)) h.phyAddr
        c.PHY_BASICSTATUS_REG)) :
    autoNegLoop c h PHY_TIMEOUT_COUNT r base =
      { returned := some c.kStatus_PHY_AutoNegotiateFail,
        result := (h.mdioHandle.read
          (base ++ List.replicate (PHY_TIMEOUT_COUNT - 1) (bsRead c h.phyAddr)) h.phyAddr
          c.PHY_BASICSTATUS_REG).1,
        counter := 0,
        log := base ++ List.replicate PHY_TIMEOUT_COUNT (bsRead c h.phyAddr) } := by
  have h2 : PHY_TIMEOUT_COUNT = 0 + 1 + (PHY_TIMEOUT_COUNT - 1) := by
    unfold PHY_TIMEOUT_COUNT; omega
  have hlast := hk (PHY_TIMEOUT_COUNT - 1) (by unfold PHY_TIMEOUT_COUNT; omega)
  conv_lhs => rw [h2]
  rw [autoNegLoop_skip c h base r (PHY_TIMEOUT_COUNT - 1) 0
    (fun k hlt => hk k (by unfold PHY_TIMEOUT_COUNT at hlt ⊢; omega))]
  rw [Nat.zero_add, autoNegLoop_last c h r _ hlast]
  have h3 : PHY_TIMEOUT_COUNT = PHY_TIMEOUT_COUNT - 1 + 1 := by unfold PHY_TIMEOUT_COUNT; omega
  conv_rhs => rw [h3, List.replicate_succ']
  simp

/-! ## Outcomes of PHY_KSZ8041_Init -/


/-- Init when the identifier is never seen before a poll within the limit. -/
theorem init_id_exhausted (c : PhyDefs) (handle : phy_handle_t) (config : phy_config_t)
    (log : List MdioEvent)
    (hk : ∀ k, k < PHY_TIMEOUT_COUNT →
      idRegAfter c handle.mdioHandle config.phyAddr log k ≠ c.PHY_CONTROL_ID1) :
    PHY_KSZ8041_Init c handle config log =
      { status := c.kStatus_Fail, handle := initHandle handle config,
        log := idLog c config.phyAddr log PHY_TIMEOUT_COUNT } := by
  have h1 := idLoop_exhausted c (initHandle handle config) log hk
  simp only [initHandle] at h1
  simp only [PHY_KSZ8041_Init, MDIO_Init, h1, initHandle]
  simp

/-- Init when the reset write fails. -/
theorem init_reset_fails (c : PhyDefs) (handle : phy_handle_t) (config : phy_config_t)
    (log : List MdioEvent) (n : Nat)
    (hf : IdFoundAfter c handle.mdioHandle config.phyAddr log n)
    (hw1 : resetWrite c handle.mdioHandle config.phyAddr log n ≠ c.kStatus_Success) :
    PHY_KSZ8041_Init c handle config log =
      { status := resetWrite c handle.mdioHandle config.phyAddr log n,
        handle := initHandle handle config, log := cfgLog c config.phyAddr log n 1 } := by
  have h1 := idLoop_found c (initHandle handle config) log n hf
  have hn : PHY_TIMEOUT_COUNT - n ≠ 0 := by
    have := hf.1; unfold PHY_TIMEOUT_COUNT at this ⊢; omega
  simp only [initHandle] at h1
  simp only [resetWrite, advertiseWrite, autoNegWrite, cfgLog, initWrites, List.take_zero,
    List.take_succ_cons, List.append_nil] at *
  simp only [PHY_KSZ8041_Init, MDIO_Init, h1, initHandle, MDIO_Write, if_neg hn]
  simp [*]

/-- Init when the reset write succeeds and the advertisement write fails. -/
theorem init_advertise_fails (c : PhyDefs) (handle : phy_handle_t) (config : phy_config_t)
    (log : List MdioEvent) (n : Nat)
    (hf : IdFoundAfter c handle.mdioHandle config.phyAddr log n)
    (hw1 : resetWrite c handle.mdioHandle config.phyAddr log n = c.kStatus_Success)
    (hw2 : advertiseWrite c handle.mdioHandle config.phyAddr log n ≠ c.kStatus_Success) :
    PHY_KSZ8041_Init c handle config log =
      { status := advertiseWrite c handle.mdioHandle config.phyAddr log n,
        handle := initHandle handle config, log := cfgLog c config.phyAddr log n 2 } := by
  have h1 := idLoop_found c (initHandle handle config) log n hf
  have hn : PHY_TIMEOUT_COUNT - n ≠ 0 := by
    have := hf.1; unfold PHY_TIMEOUT_COUNT at this ⊢; omega
  simp only [initHandle] at h1
  simp only [resetWrite, advertiseWrite, autoNegWrite, cfgLog, initWrites, List.take_zero,
    List.take_succ_cons, List.append_nil] at *
  simp only [PHY_KSZ8041_Init, MDIO_Init, h1, initHandle, MDIO_Write, if_neg hn]
  simp [*]

/-- Init when the first two writes succeed and the autonegotiation-enable
write fails. -/
theorem init_autoneg_write_fails (c : PhyDefs) (handle : phy_handle_t) (config : phy_config_t)
    (log : List MdioEvent) (n : Nat)
    (hf : IdFoundAfter c handle.mdioHandle config.phyAddr log n)
    (hw1 : resetWrite c handle.mdioHandle config.phyAddr log n = c.kStatus_Success)
    (hw2 : advertiseWrite c handle.mdioHandle config.phyAddr log n = c.kStatus_Success)
    (hw3 : autoNegWrite c handle.mdioHandle config.phyAddr log n ≠ c.kStatus_Success) :
    PHY_KSZ8041_Init c handle config log =
      { status := autoNegWrite c handle.mdioHandle config.phyAddr log n,
        handle := initHandle handle config, log := cfgLog c config.phyAddr log n 3 } := by
  have h1 := idLoop_found c (initHandle handle config) log n hf
  have hn : PHY_TIMEOUT_COUNT - n ≠ 0 := by
    have := hf.1; unfold PHY_TIMEOUT_COUNT at this ⊢; omega
  simp only [initHandle] at h1
  simp only [resetWrite, advertiseWrite, autoNegWrite, cfgLog, initWrites, List.take_zero,
    List.take_succ_cons, List.append_nil] at *
  simp only [PHY_KSZ8041_Init, MDIO_Init, h1, initHandle, MDIO_Write, if_neg hn]
  simp [*]

/-- Init after three successful writes: the outcome is that of the
autonegotiation loop started on the history after the third write. -/
theorem init_configured (c : PhyDefs) (handle : phy_handle_t) (config : phy_config_t)
    (log : List MdioEvent) (n : Nat)
    (hf : IdFoundAfter c handle.mdioHandle config.phyAddr log n)
    (hw1 : resetWrite c handle.mdioHandle config.phyAddr log n = c.kStatus_Success)
    (hw2 : advertiseWrite c handle.mdioHandle config.phyAddr log n = c.kStatus_Success)
    (hw3 : autoNegWrite c handle.mdioHandle config.phyAddr log n = c.kStatus_Success) :
    PHY_KSZ8041_Init c handle config log =
      match (autoNegLoop c (initHandle handle config) PHY_TIMEOUT_COUNT c.kStatus_Success
        (bsLog c config.phyAddr log n 0)).returned with
      | some r =>
        { status := r, handle := initHandle handle config,
          log := (autoNegLoop c (initHandle handle config) PHY_TIMEOUT_COUNT c.kStatus_Success
            (bsLog c config.phyAddr log n 0)).log }
      | none =>
        { status := (autoNegLoop c (initHandle handle config) PHY_TIMEOUT_COUNT
            c.kStatus_Success (bsLog c config.phyAddr log n 0)).result,
          handle := initHandle handle config,
          log := (autoNegLoop c (initHandle handle config) PHY_TIMEOUT_COUNT c.kStatus_Success
            (bsLog c config.phyAddr log n 0)).log } := by
  have h1 := idLoop_found c (initHandle handle config) log n hf
  have hn : PHY_TIMEOUT_COUNT - n ≠ 0 := by
    have := hf.1; unfold PHY_TIMEOUT_COUNT at this ⊢; omega
  simp only [initHandle] at h1
  simp only [resetWrite, advertiseWrite, autoNegWrite, cfgLog, initWrites, List.take_zero,
    List.take_succ_cons, List.append_nil] at *
  simp only [PHY_KSZ8041_Init, MDIO_Init, h1, initHandle, MDIO_Write, if_neg hn]
  simp [*, bsLog, cfgLog, initWrites]

/-- Init succeeds when the `(j+1)`-th basic-status poll is the first to report
completion. -/
theorem init_success (c : PhyDefs) (handle : phy_handle_t) (config : phy_config_t)
    (log : List MdioEvent) (n j : Nat)
    (hf : IdFoundAfter c handle.mdioHandle config.phyAddr log n)
    (hw1 : resetWrite c handle.mdioHandle config.phyAddr log n = c.kStatus_Success)
    (hw2 : advertiseWrite c handle.mdioHandle config.phyAddr log n = c.kStatus_Success)
    (hw3 : autoNegWrite c handle.mdioHandle config.phyAddr log n = c.kStatus_Success)
    (hj : j < PHY_TIMEOUT_COUNT)
    (hk : ∀ k, k < j → ¬ autoNegDone c (bsPoll c handle.mdioHandle config.phyAddr log n k))
    (hd : autoNegDone c (bsPoll c handle.mdioHandle config.phyAddr log n j)) :
    PHY_KSZ8041_Init c handle config log =
      { status := c.kStatus_Success, handle := initHandle handle config,
        log := bsLog c config.phyAddr log n (j + 1) } := by
  rw [init_configured c handle config log n hf hw1 hw2 hw3]
  rw [autoNegLoop_found c (initHandle handle config) (bsLog c config.phyAddr log n 0)
    c.kStatus_Success j hj
    (by simpa [bsPoll, bsLog, initHandle] using hk)
    (by simpa [bsPoll, bsLog, initHandle] using hd)]
  simp [bsLog, initHandle]

/-- Init returns `kStatus_PHY_AutoNegotiateFail` when no basic-status poll
within the limit reports completion. -/
theorem init_autoneg_timeout (c : PhyDefs) (handle : phy_handle_t) (config : phy_config_t)
    (log : List MdioEvent) (n : Nat)
    (hf : IdFoundAfter c handle.mdioHandle config.phyAddr log n)
    (hw1 : resetWrite c handle.mdioHandle config.phyAddr log n = c.kStatus_Success)
    (hw2 : advertiseWrite c handle.mdioHandle config.phyAddr log n = c.kStatus_Success)
    (hw3 : autoNegWrite c handle.mdioHandle config.phyAddr log n = c.kStatus_Success)
    (hk : ∀ k, k < PHY_TIMEOUT_COUNT →
      ¬ autoNegDone c (bsPoll c handle.mdioHandle config.phyAddr log n k)) :
    PHY_KSZ8041_Init c handle config log =
      { status := c.kStatus_PHY_AutoNegotiateFail, handle := initHandle handle config,
        log := bsLog c config.phyAddr log n PHY_TIMEOUT_COUNT } := by
  rw [init_configured c handle config log n hf hw1 hw2 hw3]
  rw [autoNegLoop_exhausted c (initHandle handle config) (bsLog c config.phyAddr log n 0)
    c.kStatus_Success
    (by simpa [bsPoll, bsLog, initHandle] using hk)]
  simp [bsLog, initHandle]

/-! ## Counting the transactions of a run -/

theorem issued_append (log xs : List MdioEvent) : issued log (log ++ xs) = xs := by
  simp [issued]

theorem idLog_eq (c : PhyDefs) (addr : Nat) (log : List MdioEvent) (k : Nat) :
    idLog c addr log k = log ++ (MdioEvent.init :: List.replicate k (idRead c addr)) := by
  simp [idLog]

theorem bsLog_eq (c : PhyDefs) (addr : Nat) (log : List MdioEvent) (n k : Nat) :
    bsLog c addr log n k =
      log ++ (MdioEvent.init :: List.replicate n (idRead c addr) ++ initWrites c addr ++
        List.replicate k (bsRead c addr)) := by
  simp [bsLog, cfgLog, idLog, initWrites]

/-! ## Every run of PHY_KSZ8041_Init -/

/-- Either no poll within the limit finds the identifier, or there is a first
poll count below the limit after which `idReg` holds it. -/
theorem id_cases (c : PhyDefs) (m : mdio_handle_t) (addr : Nat) (log : List MdioEvent) :
    (∀ k, k < PHY_TIMEOUT_COUNT → idRegAfter c m addr log k ≠ c.PHY_CONTROL_ID1) ∨
      ∃ n, IdFoundAfter c m addr log n := by
  classical
  by_cases h : ∃ n, n < PHY_TIMEOUT_COUNT ∧ idRegAfter c m addr log n = c.PHY_CONTROL_ID1
  · right
    refine ⟨Nat.find h, (Nat.find_spec h).1, ?_, (Nat.find_spec h).2⟩
    intro k hk heq
    exact Nat.find_min h hk ⟨Nat.lt_trans hk (Nat.find_spec h).1, heq⟩
  · left
    intro k hk hEq
    exact h ⟨k, hk, hEq⟩

/-- Either no basic-status poll within the limit reports completion, or there
is a first one that does. -/
theorem bs_cases (c : PhyDefs) (m : mdio_handle_t) (addr : Nat) (log : List MdioEvent)
    (n : Nat) :
    (∀ k, k < PHY_TIMEOUT_COUNT → ¬ autoNegDone c (bsPoll c m addr log n k)) ∨
      ∃ j, j < PHY_TIMEOUT_COUNT ∧ (∀ k, k < j → ¬ autoNegDone c (bsPoll c m addr log n k)) ∧
        autoNegDone c (bsPoll c m addr log n j) := by
  classical
  by_cases h : ∃ j, j < PHY_TIMEOUT_COUNT ∧ autoNegDone c (bsPoll c m addr log n j)
  · right
    refine ⟨Nat.find h, (Nat.find_spec h).1, ?_, (Nat.find_spec h).2⟩
    intro k hk hd
    exact Nat.find_min h hk ⟨Nat.lt_trans hk (Nat.find_spec h).1, hd⟩
  · left
    intro k hk hd
    exact h ⟨k, hk, hd⟩

/-- The outcomes of Init: every run is of exactly one of six kinds. -/
theorem init_cases (c : PhyDefs) (handle : phy_handle_t) (config : phy_config_t)
    (log : List MdioEvent) :
    ((∀ k, k < PHY_TIMEOUT_COUNT →
        idRegAfter c handle.mdioHandle config.phyAddr log k ≠ c.PHY_CONTROL_ID1) ∧
      PHY_KSZ8041_Init c handle config log =
        { status := c.kStatus_Fail, handle := initHandle handle config,
          log := idLog c config.phyAddr log PHY_TIMEOUT_COUNT }) ∨
    ∃ n, IdFoundAfter c handle.mdioHandle config.phyAddr log n ∧
      ((resetWrite c handle.mdioHandle config.phyAddr log n ≠ c.kStatus_Success ∧
          PHY_KSZ8041_Init c handle config log =
            { status := resetWrite c handle.mdioHandle config.phyAddr log n,
              handle := initHandle handle config, log := cfgLog c config.phyAddr log n 1 }) ∨
        (resetWrite c handle.mdioHandle config.phyAddr log n = c.kStatus_Success ∧
          advertiseWrite c handle.mdioHandle config.phyAddr log n ≠ c.kStatus_Success ∧
          PHY_KSZ8041_Init c handle config log =
            { status := advertiseWrite c handle.mdioHandle config.phyAddr log n,
              handle := initHandle handle config, log := cfgLog c config.phyAddr log n 2 }) ∨
        (resetWrite c handle.mdioHandle config.phyAddr log n = c.kStatus_Success ∧
          advertiseWrite c handle.mdioHandle config.phyAddr log n = c.kStatus_Success ∧
          autoNegWrite c handle.mdioHandle config.phyAddr log n ≠ c.kStatus_Success ∧
          PHY_KSZ8041_Init c handle config log =
            { status := autoNegWrite c handle.mdioHandle config.phyAddr log n,
              handle := initHandle handle config, log := cfgLog c config.phyAddr log n 3 }) ∨
        (resetWrite c handle.mdioHandle config.phyAddr log n = c.kStatus_Success ∧
          advertiseWrite c handle.mdioHandle config.phyAddr log n = c.kStatus_Success ∧
          autoNegWrite c handle.mdioHandle config.phyAddr log n = c.kStatus_Success ∧
          ∃ j, j < PHY_TIMEOUT_COUNT ∧
            (∀ k, k < j →
              ¬ autoNegDone c (bsPoll c handle.mdioHandle config.phyAddr log n k)) ∧
            autoNegDone c (bsPoll c handle.mdioHandle config.phyAddr log n j) ∧
            PHY_KSZ8041_Init c handle config log =
              { status := c.kStatus_Success, handle := initHandle handle config,
                log := bsLog c config.phyAddr log n (j + 1) }) ∨
        (resetWrite c handle.mdioHandle config.phyAddr log n = c.kStatus_Success ∧
          advertiseWrite c handle.mdioHandle config.phyAddr log n = c.kStatus_Success ∧
          autoNegWrite c handle.mdioHandle config.phyAddr log n = c.kStatus_Success ∧
          (∀ k, k < PHY_TIMEOUT_COUNT →
            ¬ autoNegDone c (bsPoll c handle.mdioHandle config.phyAddr log n k)) ∧
          PHY_KSZ8041_Init c handle config log =
            { status := c.kStatus_PHY_AutoNegotiateFail, handle := initHandle handle config,
              log := bsLog c config.phyAddr log n PHY_TIMEOUT_COUNT })) := by
  rcases id_cases c handle.mdioHandle config.phyAddr log with hex | ⟨n, hf⟩
  · exact Or.inl ⟨hex, init_id_exhausted c handle config log hex⟩
  · refine Or.inr ⟨n, hf, ?_⟩
    by_cases hw1 : resetWrite c handle.mdioHandle config.phyAddr log n = c.kStatus_Success
    · by_cases hw2 : advertiseWrite c handle.mdioHandle config.phyAddr log n = c.kStatus_Success
      · by_cases hw3 : autoNegWrite c handle.mdioHandle config.phyAddr log n = c.kStatus_Success
        · rcases bs_cases c handle.mdioHandle config.phyAddr log n with hno | ⟨j, hj, hk, hd⟩
          · exact Or.inr (Or.inr (Or.inr (Or.inr ⟨hw1, hw2, hw3, hno,
              init_autoneg_timeout c handle config log n hf hw1 hw2 hw3 hno⟩)))
          · exact Or.inr (Or.inr (Or.inr (Or.inl ⟨hw1, hw2, hw3, j, hj, hk, hd,
              init_success c handle config log n j hf hw1 hw2 hw3 hj hk hd⟩)))
        · exact Or.inr (Or.inr (Or.inl ⟨hw1, hw2, hw3,
            init_autoneg_write_fails c handle config log n hf hw1 hw2 hw3⟩))
      · exact Or.inr (Or.inl ⟨hw1, hw2, init_advertise_fails c handle config log n hf hw1 hw2⟩)
    · exact Or.inl ⟨hw1, init_reset_fails c handle config log n hf hw1⟩

theorem cfgLog_eq (c : PhyDefs) (addr : Nat) (log : List MdioEvent) (n j : Nat) :
    cfgLog c addr log n j = log ++ initTrace c addr n j 0 := by
  simp [cfgLog, idLog, initTrace]

theorem idLog_eq_trace (c : PhyDefs) (addr : Nat) (log : List MdioEvent) (n : Nat) :
    idLog c addr log n = log ++ initTrace c addr n 0 0 := by
  simp [idLog, initTrace]

theorem bsLog_eq_trace (c : PhyDefs) (addr : Nat) (log : List MdioEvent) (n k : Nat) :
    bsLog c addr log n k = log ++ initTrace c addr n 3 k := by
  simp [bsLog, cfgLog, idLog, initTrace, initWrites]

/-- The shape of every run of Init: the handle receives the configured address
and the transactions issued are `MDIO_Init`, at most PHY_TIMEOUT_COUNT polls of
the ID1 register, at most three configuration writes in program order, and, only
after the third write, at most PHY_TIMEOUT_COUNT polls of the basic-status
register. -/
theorem init_shape (c : PhyDefs) (handle : phy_handle_t) (config : phy_config_t)
    (log : List MdioEvent) :
    (PHY_KSZ8041_Init c handle config log).handle = initHandle handle config ∧
    ∃ n j k, n ≤ PHY_TIMEOUT_COUNT ∧ j ≤ 3 ∧ k ≤ PHY_TIMEOUT_COUNT ∧ (j < 3 → k = 0) ∧
      (n = PHY_TIMEOUT_COUNT → j = 0) ∧
      (PHY_KSZ8041_Init c handle config log).log = log ++ initTrace c config.phyAddr n j k := by
  rcases init_cases c handle config log with ⟨_, h⟩ | ⟨n, hf, h⟩
  · rw [h]
    exact ⟨rfl, PHY_TIMEOUT_COUNT, 0, 0, Nat.le_refl _, by omega, Nat.zero_le _,
      fun _ => rfl, fun _ => rfl, idLog_eq_trace _ _ _ _⟩
  · have hn : n < PHY_TIMEOUT_COUNT := hf.1
    rcases h with ⟨_, h⟩ | ⟨_, _, h⟩ | ⟨_, _, _, h⟩ | ⟨_, _, _, j, hj, _, _, h⟩ | ⟨_, _, _, _, h⟩
    · rw [h]
      exact ⟨rfl, n, 1, 0, Nat.le_of_lt hn, by omega, Nat.zero_le _, fun _ => rfl,
        fun he => by omega, cfgLog_eq _ _ _ _ _⟩
    · rw [h]
      exact ⟨rfl, n, 2, 0, Nat.le_of_lt hn, by omega, Nat.zero_le _, fun _ => rfl,
        fun he => by omega, cfgLog_eq _ _ _ _ _⟩
    · rw [h]
      exact ⟨rfl, n, 3, 0, Nat.le_of_lt hn, by omega, Nat.zero_le _, fun _ => rfl,
        fun he => by omega, cfgLog_eq _ _ _ _ _⟩
    · rw [h]
      exact ⟨rfl, n, 3, j + 1, Nat.le_of_lt hn, by omega, hj, fun h3 => by omega,
        fun he => by omega, bsLog_eq_trace _ _ _ _ _⟩
    · rw [h]
      exact ⟨rfl, n, 3, PHY_TIMEOUT_COUNT, Nat.le_of_lt hn, by omega, Nat.le_refl _,
        fun h3 => by omega, fun he => by omega, bsLog_eq_trace _ _ _ _ _⟩

/-! ## Read statuses do not select the outcome of Init -/

theorem idRegAfter_congr (c : PhyDefs) (m m' : mdio_handle_t) (addr : Nat)
    (log : List MdioEvent) (hs : SameUpToReadErrors c m m') (k : Nat) :
    idRegAfter c m' addr log k = idRegAfter c m addr log k := by
  cases k with
  | zero => rfl
  | succ k => simp only [idRegAfter, idPoll]; exact (hs.2.1 _ _ _).symm

theorem idFoundAfter_congr (c : PhyDefs) (m m' : mdio_handle_t) (addr : Nat)
    (log : List MdioEvent) (hs : SameUpToReadErrors c m m') (n : Nat)
    (hf : IdFoundAfter c m addr log n) : IdFoundAfter c m' addr log n := by
  refine ⟨hf.1, ?_, ?_⟩
  · intro k hk
    rw [idRegAfter_congr c m m' addr log hs k]
    exact hf.2.1 k hk
  · rw [idRegAfter_congr c m m' addr log hs n]
    exact hf.2.2

theorem autoNegDone_congr (c : PhyDefs) (m m' : mdio_handle_t) (addr : Nat)
    (log : List MdioEvent) (hs : SameUpToReadErrors c m m') (n k : Nat) :
    autoNegDone c (bsPoll c m' addr log n k) ↔ autoNegDone c (bsPoll c m addr log n k) := by
  simp only [autoNegDone, bsPoll]
  rw [hs.2.1 _ _ _, hs.2.2 _ _ _]

/-- Init returns the same status and issues the same transactions on two
transports that differ only in the error codes of their failed reads. -/
theorem init_congr (c : PhyDefs) (handle handle' : phy_handle_t) (config : phy_config_t)
    (log : List MdioEvent)
    (hs : SameUpToReadErrors c handle.mdioHandle handle'.mdioHandle) :
    (PHY_KSZ8041_Init c handle' config log).status =
      (PHY_KSZ8041_Init c handle config log).status ∧
    (PHY_KSZ8041_Init c handle' config log).log = (PHY_KSZ8041_Init c handle config log).log := by
  have hw1 : ∀ n, resetWrite c handle'.mdioHandle config.phyAddr log n =
      resetWrite c handle.mdioHandle config.phyAddr log n := by
    intro n; simp only [resetWrite]; exact (hs.1 _ _ _ _).symm
  have hw2 : ∀ n, advertiseWrite c handle'.mdioHandle config.phyAddr log n =
      advertiseWrite c handle.mdioHandle config.phyAddr log n := by
    intro n; simp only [advertiseWrite]; exact (hs.1 _ _ _ _).symm
  have hw3 : ∀ n, autoNegWrite c handle'.mdioHandle config.phyAddr log n =
      autoNegWrite c handle.mdioHandle config.phyAddr log n := by
    intro n; simp only [autoNegWrite]; exact (hs.1 _ _ _ _).symm
  rcases init_cases c handle config log with ⟨hex, h⟩ | ⟨n, hf, h⟩
  · rw [h, init_id_exhausted c handle' config log
      (fun k hk => by rw [idRegAfter_congr c _ _ _ log hs k]; exact hex k hk)]
    exact ⟨rfl, rfl⟩
  · have hf' := idFoundAfter_congr c _ _ config.phyAddr log hs n hf
    rcases h with ⟨h1, h⟩ | ⟨h1, h2, h⟩ | ⟨h1, h2, h3, h⟩ | ⟨h1, h2, h3, j, hj, hk, hd, h⟩ |
      ⟨h1, h2, h3, hk, h⟩
    · rw [h, init_reset_fails c handle' config log n hf' (by rw [hw1]; exact h1)]
      exact ⟨hw1 n, rfl⟩
    · rw [h, init_advertise_fails c handle' config log n hf' (by rw [hw1]; exact h1)
        (by rw [hw2]; exact h2)]
      exact ⟨hw2 n, rfl⟩
    · rw [h, init_autoneg_write_fails c handle' config log n hf' (by rw [hw1]; exact h1)
        (by rw [hw2]; exact h2) (by rw [hw3]; exact h3)]
      exact ⟨hw3 n, rfl⟩
    · rw [h, init_success c handle' config log n j hf' (by rw [hw1]; exact h1)
        (by rw [hw2]; exact h2) (by rw [hw3]; exact h3) hj
        (fun k hlt hd' => hk k hlt ((autoNegDone_congr c _ _ _ log hs n k).mp hd'))
        ((autoNegDone_congr c _ _ _ log hs n j).mpr hd)]
      exact ⟨rfl, rfl⟩
    · rw [h, init_autoneg_timeout c handle' config log n hf' (by rw [hw1]; exact h1)
        (by rw [hw2]; exact h2) (by rw [hw3]; exact h3)
        (fun k hlt hd' => hk k hlt ((autoNegDone_congr c _ _ _ log hs n k).mp hd'))]
      exact ⟨rfl, rfl⟩

/-! ## Claims -/

/-- C1 (refuted at the boundary N = 100000): on a transport whose first 99999
reads of the ID1 register return a non-matching value and whose 100000-th read
returns PHY_CONTROL_ID1, with all writes succeeding and the basic-status
register reporting autonegotiation-complete at once, every hypothesis of the
claim holds at N = PHY_TIMEOUT_COUNT, yet PHY_KSZ8041_Init returns kStatus_Fail
(which differs from kStatus_Success) and issues no write: the identification
loop leaves the counter at zero on the very poll that matched. -/
theorem C1_init_fails_when_id_matches_on_last_poll (addr : Nat) :
    (1 ≤ PHY_TIMEOUT_COUNT ∧ PHY_TIMEOUT_COUNT ≤ 100000) ∧
    (∀ k, k < PHY_TIMEOUT_COUNT - 1 →
      (idPoll ksz8041Defs (stepMdio ksz8041Defs PHY_TIMEOUT_COUNT 0) addr [] k).2 ≠
        ksz8041Defs.PHY_CONTROL_ID1) ∧
    (idPoll ksz8041Defs (stepMdio ksz8041Defs PHY_TIMEOUT_COUNT 0) addr []
      (PHY_TIMEOUT_COUNT - 1)).2 = ksz8041Defs.PHY_CONTROL_ID1 ∧
    resetWrite ksz8041Defs (stepMdio ksz8041Defs PHY_TIMEOUT_COUNT 0) addr []
      PHY_TIMEOUT_COUNT = ksz8041Defs.kStatus_Success ∧
    advertiseWrite ksz8041Defs (stepMdio ksz8041Defs PHY_TIMEOUT_COUNT 0) addr []
      PHY_TIMEOUT_COUNT = ksz8041Defs.kStatus_Success ∧
    autoNegWrite ksz8041Defs (stepMdio ksz8041Defs PHY_TIMEOUT_COUNT 0) addr []
      PHY_TIMEOUT_COUNT = ksz8041Defs.kStatus_Success ∧
    autoNegDone ksz8041Defs
      (bsPoll ksz8041Defs (stepMdio ksz8041Defs PHY_TIMEOUT_COUNT 0) addr []
        PHY_TIMEOUT_COUNT 0) ∧
    (PHY_KSZ8041_Init ksz8041Defs ⟨0, stepMdio ksz8041Defs PHY_TIMEOUT_COUNT 0⟩ ⟨addr⟩
      []).status = ksz8041Defs.kStatus_Fail ∧
    ksz8041Defs.kStatus_Fail ≠ ksz8041Defs.kStatus_Success ∧
    (PHY_KSZ8041_Init ksz8041Defs ⟨0, stepMdio ksz8041Defs PHY_TIMEOUT_COUNT 0⟩ ⟨addr⟩
      []).log = MdioEvent.init :: List.replicate PHY_TIMEOUT_COUNT (idRead ksz8041Defs addr) ∧
    writeCount (PHY_KSZ8041_Init ksz8041Defs ⟨0, stepMdio ksz8041Defs PHY_TIMEOUT_COUNT 0⟩
      ⟨addr⟩ []).log = 0 := by
  have hlen : ∀ k, (idLog ksz8041Defs addr [] k).length = k + 1 := by
    intro k; simp [idLog]
  have hpoll : ∀ k, k + 1 < PHY_TIMEOUT_COUNT →
      (idPoll ksz8041Defs (stepMdio ksz8041Defs PHY_TIMEOUT_COUNT 0) addr [] k).2 ≠
        ksz8041Defs.PHY_CONTROL_ID1 := by
    intro k hk
    have hlt : ¬ (PHY_TIMEOUT_COUNT ≤ (idLog ksz8041Defs addr [] k).length) := by
      rw [hlen]; omega
    simp only [idPoll, stepMdio, if_neg hlt]
    simp
  have hmis : ∀ k, k < PHY_TIMEOUT_COUNT →
      idRegAfter ksz8041Defs (stepMdio ksz8041Defs PHY_TIMEOUT_COUNT 0) addr [] k ≠
        ksz8041Defs.PHY_CONTROL_ID1 := by
    intro k hk
    cases k with
    | zero => simp [idRegAfter, ksz8041Defs]
    | succ k => exact hpoll k hk
  have hinit := init_id_exhausted ksz8041Defs
    ⟨0, stepMdio ksz8041Defs PHY_TIMEOUT_COUNT 0⟩ ⟨addr⟩ [] hmis
  refine ⟨⟨by decide, by decide⟩, ?_, ?_, ?_, ?_, ?_, ?_, ?_, ?_, ?_, ?_⟩
  · intro k hk
    exact hpoll k (by unfold PHY_TIMEOUT_COUNT at hk ⊢; omega)
  · have hge : PHY_TIMEOUT_COUNT ≤
        (idLog ksz8041Defs addr [] (PHY_TIMEOUT_COUNT - 1)).length := by
      rw [hlen]; unfold PHY_TIMEOUT_COUNT; omega
    simp only [idPoll, stepMdio, if_pos hge]
    simp
  · simp [resetWrite, stepMdio]
  · simp [advertiseWrite, stepMdio]
  · simp [autoNegWrite, stepMdio]
  · simp [autoNegDone, bsPoll, stepMdio, ksz8041Defs]
  · rw [hinit]
  · simp [ksz8041Defs]
  · rw [hinit, idLog_eq]; rfl
  · rw [hinit, idLog_eq]
    simp only [writeCount, List.nil_append, List.countP_cons, List.countP_replicate, isWrite,
      idRead]
    simp

/-- C2: if every poll of the ID1 register leaves a value different from
PHY_CONTROL_ID1 (and the identifier is not the initial value 0 of `idReg`),
PHY_KSZ8041_Init returns kStatus_Fail, which is not
kStatus_PHY_AutoNegotiateFail, after MDIO_Init and exactly
PHY_TIMEOUT_COUNT = 100000 reads of the ID1 register at the configured address,
with no write and no read of the basic-status register. -/
theorem C2_init_id_never_matches (c : PhyDefs) (handle : phy_handle_t) (config : phy_config_t)
    (log : List MdioEvent)
    (hid : c.PHY_CONTROL_ID1 ≠ 0)
    (hst : c.kStatus_Fail ≠ c.kStatus_PHY_AutoNegotiateFail)
    (hreg : c.PHY_ID1_REG ≠ c.PHY_BASICSTATUS_REG)
    (hmis : ∀ k, k < PHY_TIMEOUT_COUNT →
      (idPoll c handle.mdioHandle config.phyAddr log k).2 ≠ c.PHY_CONTROL_ID1) :
    (PHY_KSZ8041_Init c handle config log).status = c.kStatus_Fail ∧
    (PHY_KSZ8041_Init c handle config log).status ≠ c.kStatus_PHY_AutoNegotiateFail ∧
    issued log (PHY_KSZ8041_Init c handle config log).log =
      MdioEvent.init ::
        List.replicate PHY_TIMEOUT_COUNT (MdioEvent.read config.phyAddr c.PHY_ID1_REG) ∧
    PHY_TIMEOUT_COUNT = 100000 ∧
    readCountOf c.PHY_ID1_REG (issued log (PHY_KSZ8041_Init c handle config log).log) =
      PHY_TIMEOUT_COUNT ∧
    readCount (issued log (PHY_KSZ8041_Init c handle config log).log) = PHY_TIMEOUT_COUNT ∧
    writeCount (issued log (PHY_KSZ8041_Init c handle config log).log) = 0 ∧
    readCountOf c.PHY_BASICSTATUS_REG (issued log (PHY_KSZ8041_Init c handle config log).log)
      = 0 := by
  have hk : ∀ k, k < PHY_TIMEOUT_COUNT →
      idRegAfter c handle.mdioHandle config.phyAddr log k ≠ c.PHY_CONTROL_ID1 := by
    intro k hlt
    cases k with
    | zero => simpa [idRegAfter] using hid.symm
    | succ k => exact hmis k (Nat.lt_of_succ_lt hlt)
  rw [init_id_exhausted c handle config log hk, idLog_eq, issued_append]
  refine ⟨rfl, hst, rfl, rfl, ?_, ?_, ?_, ?_⟩
  · simp only [readCountOf, List.countP_cons, List.countP_replicate, isReadOf, idRead]
    simp
  · simp only [readCount, List.countP_cons, List.countP_replicate, isRead, idRead]
    simp
  · simp only [writeCount, List.countP_cons, List.countP_replicate, isWrite, idRead]
    simp
  · simp only [readCountOf, List.countP_cons, List.countP_replicate, isReadOf, idRead]
    simp [hreg]

/-- Witness for C2 on a transport whose every read returns the value 0. -/
theorem C2_init_id_never_matches_witness :
    (∀ k, k < PHY_TIMEOUT_COUNT →
      (idPoll ksz8041Defs (constMdio 0 0 0) 3 [] k).2 ≠ ksz8041Defs.PHY_CONTROL_ID1) ∧
    (PHY_KSZ8041_Init ksz8041Defs ⟨0, constMdio 0 0 0⟩ ⟨3⟩ []).status = 1 ∧
    writeCount (issued [] (PHY_KSZ8041_Init ksz8041Defs ⟨0, constMdio 0 0 0⟩ ⟨3⟩ []).log) = 0 :=
  have hmis : ∀ k, k < PHY_TIMEOUT_COUNT →
      (idPoll ksz8041Defs (constMdio 0 0 0) 3 [] k).2 ≠ ksz8041Defs.PHY_CONTROL_ID1 := by
    intro k _; simp [idPoll, constMdio, ksz8041Defs]
  have h := C2_init_id_never_matches ksz8041Defs ⟨0, constMdio 0 0 0⟩ ⟨3⟩ []
    (by decide) (by decide) (by decide) hmis
  ⟨hmis, h.1, h.2.2.2.2.2.2.1⟩


/-- C3: in a run of PHY_KSZ8041_Init where the identifier is found (after `n`
polls, so that the writes are issued) and the reset, advertisement and
autonegotiation-enable writes all succeed, if none of the PHY_TIMEOUT_COUNT =
100000 basic-status reads returns a value with the
PHY_BSTATUS_AUTONEGCOMP_MASK bit set, Init returns
kStatus_PHY_AutoNegotiateFail, which is not kStatus_Fail, after exactly 100000
basic-status reads. -/
theorem C3_init_autoneg_timeout (c : PhyDefs) (handle : phy_handle_t) (config : phy_config_t)
    (log : List MdioEvent) (n : Nat)
    (hst : c.kStatus_PHY_AutoNegotiateFail ≠ c.kStatus_Fail)
    (hreg : c.PHY_ID1_REG ≠ c.PHY_BASICSTATUS_REG)
    (hf : IdFoundAfter c handle.mdioHandle config.phyAddr log n)
    (hw1 : resetWrite c handle.mdioHandle config.phyAddr log n = c.kStatus_Success)
    (hw2 : advertiseWrite c handle.mdioHandle config.phyAddr log n = c.kStatus_Success)
    (hw3 : autoNegWrite c handle.mdioHandle config.phyAddr log n = c.kStatus_Success)
    (hbs : ∀ k, k < PHY_TIMEOUT_COUNT →
      (bsPoll c handle.mdioHandle config.phyAddr log n k).2 &&&
        c.PHY_BSTATUS_AUTONEGCOMP_MASK = 0) :
    (PHY_KSZ8041_Init c handle config log).status = c.kStatus_PHY_AutoNegotiateFail ∧
    (PHY_KSZ8041_Init c handle config log).status ≠ c.kStatus_Fail ∧
    issued log (PHY_KSZ8041_Init c handle config log).log =
      MdioEvent.init :: List.replicate n (MdioEvent.read config.phyAddr c.PHY_ID1_REG) ++
        initWrites c config.phyAddr ++
        List.replicate PHY_TIMEOUT_COUNT (MdioEvent.read config.phyAddr c.PHY_BASICSTATUS_REG) ∧
    PHY_TIMEOUT_COUNT = 100000 ∧
    readCountOf c.PHY_BASICSTATUS_REG (issued log (PHY_KSZ8041_Init c handle config log).log) =
      PHY_TIMEOUT_COUNT := by
  have hk : ∀ k, k < PHY_TIMEOUT_COUNT →
      ¬ autoNegDone c (bsPoll c handle.mdioHandle config.phyAddr log n k) := by
    intro k hlt hd
    exact hd.2 (hbs k hlt)
  rw [init_autoneg_timeout c handle config log n hf hw1 hw2 hw3 hk, bsLog_eq, issued_append]
  refine ⟨rfl, hst, rfl, rfl, ?_⟩
  simp only [readCountOf, List.countP_cons, List.countP_append, List.countP_replicate, isReadOf,
    idRead, bsRead, initWrites, List.countP_nil]
  simp [hreg]

/-- Witness for C3 on a transport where the identifier is read at once and the
basic-status register always reads as 0. -/
theorem C3_init_autoneg_timeout_witness :
    IdFoundAfter ksz8041Defs (idleMdio ksz8041Defs) 5 [] 1 ∧
    (PHY_KSZ8041_Init ksz8041Defs ⟨0, idleMdio ksz8041Defs⟩ ⟨5⟩ []).status = 4101 :=
  have hf : IdFoundAfter ksz8041Defs (idleMdio ksz8041Defs) 5 [] 1 := by
    refine ⟨by decide, ?_, ?_⟩
    · intro k hk
      have h0 : k = 0 := by omega
      subst h0
      simp [idRegAfter, ksz8041Defs]
    · simp [idRegAfter, idPoll, idleMdio]
  ⟨hf, (C3_init_autoneg_timeout ksz8041Defs ⟨0, idleMdio ksz8041Defs⟩ ⟨5⟩ [] 1
    (by decide) (by decide) hf (by simp [resetWrite, idleMdio])
    (by simp [advertiseWrite, idleMdio]) (by simp [autoNegWrite, idleMdio])
    (by intro k _; simp [bsPoll, idleMdio, ksz8041Defs])).1⟩

/-- C4 (refuted as stated): on a transport whose first read of the ID1 register
and whose first read of the basic-status register each return the error status
4100, every other transaction succeeding, PHY_KSZ8041_Init neither stops at
either failed read nor returns that error: it returns kStatus_Success after a
second ID1 read, the three writes and a second basic-status read. -/
theorem C4_failed_read_does_not_stop_init :
    (idPoll ksz8041Defs (flakyReadsMdio ksz8041Defs 4100) 0 [] 0).1 = 4100 ∧
    (bsPoll ksz8041Defs (flakyReadsMdio ksz8041Defs 4100) 0 [] 2 0).1 = 4100 ∧
    (4100 : Int) ≠ ksz8041Defs.kStatus_Success ∧
    (PHY_KSZ8041_Init ksz8041Defs ⟨0, flakyReadsMdio ksz8041Defs 4100⟩ ⟨0⟩ []).status =
      ksz8041Defs.kStatus_Success ∧
    (PHY_KSZ8041_Init ksz8041Defs ⟨0, flakyReadsMdio ksz8041Defs 4100⟩ ⟨0⟩ []).status ≠ 4100 ∧
    (PHY_KSZ8041_Init ksz8041Defs ⟨0, flakyReadsMdio ksz8041Defs 4100⟩ ⟨0⟩ []).log =
      [MdioEvent.init, MdioEvent.read 0 2, MdioEvent.read 0 2, MdioEvent.write 0 0 0x8000,
        MdioEvent.write 0 4 0x1E1, MdioEvent.write 0 0 0x1200, MdioEvent.read 0 1,
        MdioEvent.read 0 1] := by
  have hf : IdFoundAfter ksz8041Defs (flakyReadsMdio ksz8041Defs 4100) 0 [] 2 := by
    refine ⟨by decide, ?_, ?_⟩
    · intro k hk
      have h0 : k = 0 ∨ k = 1 := by omega
      rcases h0 with h0 | h0 <;> subst h0 <;>
        simp [idRegAfter, idPoll, idLog, flakyReadsMdio, readCountOf, isReadOf, ksz8041Defs]
    · simp [idRegAfter, idPoll, idLog, flakyReadsMdio, readCountOf, isReadOf, idRead,
        ksz8041Defs]
  have hinit := init_success ksz8041Defs ⟨0, flakyReadsMdio ksz8041Defs 4100⟩ ⟨0⟩ [] 2 1 hf
    (by simp [resetWrite, flakyReadsMdio]) (by simp [advertiseWrite, flakyReadsMdio])
    (by simp [autoNegWrite, flakyReadsMdio]) (by decide)
    (by
      intro k hk
      have h0 : k = 0 := by omega
      subst h0
      simp [autoNegDone, bsPoll, bsLog, cfgLog, idLog, initWrites, flakyReadsMdio,
        readCountOf, isReadOf, idRead, ksz8041Defs])
    (by simp [autoNegDone, bsPoll, bsLog, cfgLog, idLog, initWrites, flakyReadsMdio,
      readCountOf, isReadOf, idRead, bsRead, ksz8041Defs])
  refine ⟨?_, ?_, by decide, ?_, ?_, ?_⟩
  · simp [idPoll, idLog, flakyReadsMdio, readCountOf, isReadOf]
  · simp [bsPoll, bsLog, cfgLog, idLog, initWrites, flakyReadsMdio, readCountOf, isReadOf,
      idRead, ksz8041Defs]
  · rw [hinit]
  · rw [hinit]; decide
  · rw [hinit]
    simp [bsLog, cfgLog, idLog, initWrites, idRead, bsRead, advertiseValue, ksz8041Defs]

/-- C4 (amended): in every run of PHY_KSZ8041_Init, the first of the three
configuration writes (issued once the identifier is found, after `n` polls)
that returns a status other than kStatus_Success ends the run: Init returns
exactly that status and the write is the last transaction issued.  The status
returned by a read of the ID1 register or of the basic-status register is not
propagated: on any transport that differs only in the error codes of its
failed reads Init returns the same status and issues the same transactions. -/
theorem C4_init_write_error_stops (c : PhyDefs) (handle : phy_handle_t)
    (config : phy_config_t) (log : List MdioEvent) :
    (∀ n, IdFoundAfter c handle.mdioHandle config.phyAddr log n →
      (resetWrite c handle.mdioHandle config.phyAddr log n ≠ c.kStatus_Success →
        (PHY_KSZ8041_Init c handle config log).status =
          resetWrite c handle.mdioHandle config.phyAddr log n ∧
        (PHY_KSZ8041_Init c handle config log).log = cfgLog c config.phyAddr log n 1) ∧
      (resetWrite c handle.mdioHandle config.phyAddr log n = c.kStatus_Success →
        advertiseWrite c handle.mdioHandle config.phyAddr log n ≠ c.kStatus_Success →
        (PHY_KSZ8041_Init c handle config log).status =
          advertiseWrite c handle.mdioHandle config.phyAddr log n ∧
        (PHY_KSZ8041_Init c handle config log).log = cfgLog c config.phyAddr log n 2) ∧
      (resetWrite c handle.mdioHandle config.phyAddr log n = c.kStatus_Success →
        advertiseWrite c handle.mdioHandle config.phyAddr log n = c.kStatus_Success →
        autoNegWrite c handle.mdioHandle config.phyAddr log n ≠ c.kStatus_Success →
        (PHY_KSZ8041_Init c handle config log).status =
          autoNegWrite c handle.mdioHandle config.phyAddr log n ∧
        (PHY_KSZ8041_Init c handle config log).log = cfgLog c config.phyAddr log n 3)) ∧
    (∀ handle' : phy_handle_t,
      SameUpToReadErrors c handle.mdioHandle handle'.mdioHandle →
      (PHY_KSZ8041_Init c handle' config log).status =
        (PHY_KSZ8041_Init c handle config log).status ∧
      (PHY_KSZ8041_Init c handle' config log).log =
        (PHY_KSZ8041_Init c handle config log).log) := by
  refine ⟨?_, ?_⟩
  · intro n hf
    refine ⟨?_, ?_, ?_⟩
    · intro hw1
      rw [init_reset_fails c handle config log n hf hw1]
      exact ⟨rfl, rfl⟩
    · intro hw1 hw2
      rw [init_advertise_fails c handle config log n hf hw1 hw2]
      exact ⟨rfl, rfl⟩
    · intro hw1 hw2 hw3
      rw [init_autoneg_write_fails c handle config log n hf hw1 hw2 hw3]
      exact ⟨rfl, rfl⟩
  · intro handle' hs
    exact init_congr c handle handle' config log hs

/-- Witness for C4 (amended) on a transport whose reads return the identifier
and whose writes fail with status 7: Init returns 7 after the reset write. -/
theorem C4_init_write_error_stops_witness :
    IdFoundAfter ksz8041Defs (constMdio 0 0x22 7) 0 [] 1 ∧
    (PHY_KSZ8041_Init ksz8041Defs ⟨0, constMdio 0 0x22 7⟩ ⟨0⟩ []).status = 7 ∧
    (PHY_KSZ8041_Init ksz8041Defs ⟨0, constMdio 0 0x22 7⟩ ⟨0⟩ []).log =
      [MdioEvent.init, MdioEvent.read 0 2, MdioEvent.write 0 0 0x8000] :=
  have hf : IdFoundAfter ksz8041Defs (constMdio 0 0x22 7) 0 [] 1 := by
    refine ⟨by decide, ?_, ?_⟩
    · intro k hk
      have h0 : k = 0 := by omega
      subst h0
      simp [idRegAfter, ksz8041Defs]
    · simp [idRegAfter, idPoll, constMdio, ksz8041Defs]
  have h := ((C4_init_write_error_stops ksz8041Defs ⟨0, constMdio 0 0x22 7⟩ ⟨0⟩ []).1 1
    hf).1 (by simp [resetWrite, constMdio, ksz8041Defs])
  ⟨hf, by rw [h.1]; simp [resetWrite, constMdio],
    by rw [h.2]; simp [cfgLog, idLog, initWrites, idRead, ksz8041Defs]⟩

/-- The 32-bit complement toggles each of the low 32 bits and has no bit above. -/
theorem not32_testBit (x i : Nat) :
    (not32 x).testBit i = (decide (i < 32) && !x.testBit i) := by
  have h1 : (4294967296 : Nat) = 2 ^ 32 := by norm_num
  have h2 : (4294967295 : Nat) = 2 ^ 32 - 1 := by norm_num
  unfold not32
  rw [Nat.testBit_xor, h1, h2, Nat.testBit_mod_two_pow, Nat.testBit_two_pow_sub_one]
  by_cases h : i < 32 <;> simp [h]

/-- C5: PHY_KSZ8041_GetLinkStatus issues exactly one transaction, a read of the
basic-status register at the handle's address, and no write; when the read
succeeds with value v it returns kStatus_Success and sets `*status` to true
exactly when (v AND PHY_BSTATUS_LINKSTATUS_MASK) is non-zero; when the read
fails it returns the read's status (and leaves `*status` as it was). -/
theorem C5_get_link_status (c : PhyDefs) (handle : phy_handle_t) (status0 : Bool)
    (log : List MdioEvent) :
    issued log (PHY_KSZ8041_GetLinkStatus c handle status0 log).log =
      [MdioEvent.read handle.phyAddr c.PHY_BASICSTATUS_REG] ∧
    readCount (issued log (PHY_KSZ8041_GetLinkStatus c handle status0 log).log) = 1 ∧
    writeCount (issued log (PHY_KSZ8041_GetLinkStatus c handle status0 log).log) = 0 ∧
    (∀ v, handle.mdioHandle.read log handle.phyAddr c.PHY_BASICSTATUS_REG =
        (c.kStatus_Success, v) →
      (PHY_KSZ8041_GetLinkStatus c handle status0 log).result = c.kStatus_Success ∧
      ((PHY_KSZ8041_GetLinkStatus c handle status0 log).status = true ↔
        v &&& c.PHY_BSTATUS_LINKSTATUS_MASK ≠ 0)) ∧
    ((handle.mdioHandle.read log handle.phyAddr c.PHY_BASICSTATUS_REG).1 ≠ c.kStatus_Success →
      (PHY_KSZ8041_GetLinkStatus c handle status0 log).result =
        (handle.mdioHandle.read log handle.phyAddr c.PHY_BASICSTATUS_REG).1 ∧
      (PHY_KSZ8041_GetLinkStatus c handle status0 log).status = status0) := by
  have hlog : (PHY_KSZ8041_GetLinkStatus c handle status0 log).log =
      log ++ [MdioEvent.read handle.phyAddr c.PHY_BASICSTATUS_REG] := by
    unfold PHY_KSZ8041_GetLinkStatus MDIO_Read
    simp only
    split_ifs <;> rfl
  rw [hlog, issued_append]
  refine ⟨rfl, by simp [readCount, isRead], by simp [writeCount, isWrite], ?_, ?_⟩
  · intro v hv
    unfold PHY_KSZ8041_GetLinkStatus MDIO_Read
    simp only [hv, if_true]
    rw [Nat.land_comm c.PHY_BSTATUS_LINKSTATUS_MASK v]
    by_cases hb : v &&& c.PHY_BSTATUS_LINKSTATUS_MASK = 0 <;> simp [hb]
  · intro hne
    unfold PHY_KSZ8041_GetLinkStatus MDIO_Read
    simp only [if_neg hne]
    exact ⟨trivial, trivial⟩

/-- Witness for C5: with the basic-status register reading 0x24 (link bit set)
the link is reported up. -/
theorem C5_get_link_status_witness :
    (PHY_KSZ8041_GetLinkStatus ksz8041Defs ⟨3, constMdio 0 0x24 0⟩ false []).result = 0 ∧
    (PHY_KSZ8041_GetLinkStatus ksz8041Defs ⟨3, constMdio 0 0x24 0⟩ false []).status = true :=
  have h := (C5_get_link_status ksz8041Defs ⟨3, constMdio 0 0x24 0⟩ false []).2.2.2.1 0x24 rfl
  ⟨h.1, h.2.mpr (by decide)⟩


/-- The speed and duplex PHY_KSZ8041_GetLinkSpeedDuplex reports after a
successful read of value `v`, as functions of the masked bits alone. -/
theorem getLinkSpeedDuplex_of_read (c : PhyDefs) (handle : phy_handle_t) (speed0 : phy_speed_t)
    (duplex0 : phy_duplex_t) (log : List MdioEvent) (v : Nat)
    (hread : handle.mdioHandle.read log handle.phyAddr c.PHY_CONTROL2_REG =
      (c.kStatus_Success, v)) :
    PHY_KSZ8041_GetLinkSpeedDuplex c handle speed0 duplex0 log =
      { result := c.kStatus_Success,
        speed :=
          if c.PHY_CTL2_100HALFDUPLEX_MASK = v &&& c.PHY_BSTATUS_SPEEDUPLX_MASK ∨
              c.PHY_CTL2_100FULLDUPLEX_MASK = v &&& c.PHY_BSTATUS_SPEEDUPLX_MASK then
            phy_speed_t.kPHY_Speed100M
          else phy_speed_t.kPHY_Speed10M,
        duplex :=
          if c.PHY_CTL2_10FULLDUPLEX_MASK = v &&& c.PHY_BSTATUS_SPEEDUPLX_MASK ∨
              c.PHY_CTL2_100FULLDUPLEX_MASK = v &&& c.PHY_BSTATUS_SPEEDUPLX_MASK then
            phy_duplex_t.kPHY_FullDuplex
          else phy_duplex_t.kPHY_HalfDuplex,
        log := log ++ [MdioEvent.read handle.phyAddr c.PHY_CONTROL2_REG] } := by
  unfold PHY_KSZ8041_GetLinkSpeedDuplex MDIO_Read
  simp only [hread, if_true]

/-- C6: with the four control-register-2 patterns pairwise distinct, a
PHY_KSZ8041_GetLinkSpeedDuplex whose single read of control-register-2
succeeds with value v returns kStatus_Success and, when the bits of v under
PHY_BSTATUS_SPEEDUPLX_MASK equal a pattern, the pair of the table:
10M-half gives (10M, Half), 10M-full (10M, Full), 100M-half (100M, Half),
100M-full (100M, Full); any other successful read whose masked bits agree with
those of v gives the same speed and duplex, so bits outside the mask do not
affect the result.  (That each pattern lies within the mask is not needed.) -/
theorem C6_speed_duplex_table (c : PhyDefs) (handle : phy_handle_t) (speed0 : phy_speed_t)
    (duplex0 : phy_duplex_t) (log : List MdioEvent) (v : Nat)
    (h1 : c.PHY_CTL2_10HALFDUPLEX_MASK ≠ c.PHY_CTL2_10FULLDUPLEX_MASK)
    (h2 : c.PHY_CTL2_10HALFDUPLEX_MASK ≠ c.PHY_CTL2_100HALFDUPLEX_MASK)
    (h3 : c.PHY_CTL2_10HALFDUPLEX_MASK ≠ c.PHY_CTL2_100FULLDUPLEX_MASK)
    (h4 : c.PHY_CTL2_10FULLDUPLEX_MASK ≠ c.PHY_CTL2_100HALFDUPLEX_MASK)
    (h5 : c.PHY_CTL2_10FULLDUPLEX_MASK ≠ c.PHY_CTL2_100FULLDUPLEX_MASK)
    (h6 : c.PHY_CTL2_100HALFDUPLEX_MASK ≠ c.PHY_CTL2_100FULLDUPLEX_MASK)
    (hread : handle.mdioHandle.read log handle.phyAddr c.PHY_CONTROL2_REG =
      (c.kStatus_Success, v)) :
    issued log (PHY_KSZ8041_GetLinkSpeedDuplex c handle speed0 duplex0 log).log =
      [MdioEvent.read handle.phyAddr c.PHY_CONTROL2_REG] ∧
    (PHY_KSZ8041_GetLinkSpeedDuplex c handle speed0 duplex0 log).result = c.kStatus_Success ∧
    (v &&& c.PHY_BSTATUS_SPEEDUPLX_MASK = c.PHY_CTL2_10HALFDUPLEX_MASK →
      (PHY_KSZ8041_GetLinkSpeedDuplex c handle speed0 duplex0 log).speed =
        phy_speed_t.kPHY_Speed10M ∧
      (PHY_KSZ8041_GetLinkSpeedDuplex c handle speed0 duplex0 log).duplex =
        phy_duplex_t.kPHY_HalfDuplex) ∧
    (v &&& c.PHY_BSTATUS_SPEEDUPLX_MASK = c.PHY_CTL2_10FULLDUPLEX_MASK →
      (PHY_KSZ8041_GetLinkSpeedDuplex c handle speed0 duplex0 log).speed =
        phy_speed_t.kPHY_Speed10M ∧
      (PHY_KSZ8041_GetLinkSpeedDuplex c handle speed0 duplex0 log).duplex =
        phy_duplex_t.kPHY_FullDuplex) ∧
    (v &&& c.PHY_BSTATUS_SPEEDUPLX_MASK = c.PHY_CTL2_100HALFDUPLEX_MASK →
      (PHY_KSZ8041_GetLinkSpeedDuplex c handle speed0 duplex0 log).speed =
        phy_speed_t.kPHY_Speed100M ∧
      (PHY_KSZ8041_GetLinkSpeedDuplex c handle speed0 duplex0 log).duplex =
        phy_duplex_t.kPHY_HalfDuplex) ∧
    (v &&& c.PHY_BSTATUS_SPEEDUPLX_MASK = c.PHY_CTL2_100FULLDUPLEX_MASK →
      (PHY_KSZ8041_GetLinkSpeedDuplex c handle speed0 duplex0 log).speed =
        phy_speed_t.kPHY_Speed100M ∧
      (PHY_KSZ8041_GetLinkSpeedDuplex c handle speed0 duplex0 log).duplex =
        phy_duplex_t.kPHY_FullDuplex) ∧
    (∀ (handle' : phy_handle_t) (speed0' : phy_speed_t) (duplex0' : phy_duplex_t)
        (log' : List MdioEvent) (v' : Nat),
      handle'.mdioHandle.read log' handle'.phyAddr c.PHY_CONTROL2_REG =
        (c.kStatus_Success, v') →
      v' &&& c.PHY_BSTATUS_SPEEDUPLX_MASK = v &&& c.PHY_BSTATUS_SPEEDUPLX_MASK →
      (PHY_KSZ8041_GetLinkSpeedDuplex c handle' speed0' duplex0' log').speed =
        (PHY_KSZ8041_GetLinkSpeedDuplex c handle speed0 duplex0 log).speed ∧
      (PHY_KSZ8041_GetLinkSpeedDuplex c handle' speed0' duplex0' log').duplex =
        (PHY_KSZ8041_GetLinkSpeedDuplex c handle speed0 duplex0 log).duplex) := by
  rw [getLinkSpeedDuplex_of_read c handle speed0 duplex0 log v hread]
  refine ⟨by simp [issued], rfl, ?_, ?_, ?_, ?_, ?_⟩
  · intro hv
    simp only [hv]
    simp [h2.symm, h3.symm, h1.symm]
  · intro hv
    simp only [hv]
    simp [h4.symm, h5.symm]
  · intro hv
    simp only [hv]
    simp [h4, h6.symm]
  · intro hv
    simp only [hv]
    simp
  · intro handle' speed0' duplex0' log' v' hread' hv
    rw [getLinkSpeedDuplex_of_read c handle' speed0' duplex0' log' v' hread']
    simp only [hv]
    exact ⟨trivial, trivial⟩

/-- Witness for C6: control-register-2 reading 0x18 (plus bits outside the
mask) decodes as 100M full duplex. -/
theorem C6_speed_duplex_table_witness :
    (PHY_KSZ8041_GetLinkSpeedDuplex ksz8041Defs ⟨1, constMdio 0 0x8118 0⟩
      phy_speed_t.kPHY_Speed10M phy_duplex_t.kPHY_HalfDuplex []).speed =
        phy_speed_t.kPHY_Speed100M ∧
    (PHY_KSZ8041_GetLinkSpeedDuplex ksz8041Defs ⟨1, constMdio 0 0x8118 0⟩
      phy_speed_t.kPHY_Speed10M phy_duplex_t.kPHY_HalfDuplex []).duplex =
        phy_duplex_t.kPHY_FullDuplex :=
  (C6_speed_duplex_table ksz8041Defs ⟨1, constMdio 0 0x8118 0⟩ phy_speed_t.kPHY_Speed10M
    phy_duplex_t.kPHY_HalfDuplex [] 0x8118 (by decide) (by decide) (by decide) (by decide)
    (by decide) (by decide) rfl).2.2.2.2.2.1 (by decide)

/-- C7: when a read of control-register-2 succeeds with a value whose bits
under PHY_BSTATUS_SPEEDUPLX_MASK equal none of the four defined patterns,
PHY_KSZ8041_GetLinkSpeedDuplex returns kStatus_Success with duplex = Half and
speed = 10M. -/
theorem C7_speed_duplex_fallback (c : PhyDefs) (handle : phy_handle_t) (speed0 : phy_speed_t)
    (duplex0 : phy_duplex_t) (log : List MdioEvent) (v : Nat)
    (hread : handle.mdioHandle.read log handle.phyAddr c.PHY_CONTROL2_REG =
      (c.kStatus_Success, v))
    (h10h : v &&& c.PHY_BSTATUS_SPEEDUPLX_MASK ≠ c.PHY_CTL2_10HALFDUPLEX_MASK)
    (h10f : v &&& c.PHY_BSTATUS_SPEEDUPLX_MASK ≠ c.PHY_CTL2_10FULLDUPLEX_MASK)
    (h100h : v &&& c.PHY_BSTATUS_SPEEDUPLX_MASK ≠ c.PHY_CTL2_100HALFDUPLEX_MASK)
    (h100f : v &&& c.PHY_BSTATUS_SPEEDUPLX_MASK ≠ c.PHY_CTL2_100FULLDUPLEX_MASK) :
    (PHY_KSZ8041_GetLinkSpeedDuplex c handle speed0 duplex0 log).result = c.kStatus_Success ∧
    (PHY_KSZ8041_GetLinkSpeedDuplex c handle speed0 duplex0 log).duplex =
      phy_duplex_t.kPHY_HalfDuplex ∧
    (PHY_KSZ8041_GetLinkSpeedDuplex c handle speed0 duplex0 log).speed =
      phy_speed_t.kPHY_Speed10M := by
  have _ := h10h
  rw [getLinkSpeedDuplex_of_read c handle speed0 duplex0 log v hread]
  simp [h10f.symm, h100h.symm, h100f.symm]

/-- Witness for C7: control-register-2 reading 0 matches no pattern and
decodes as 10M half duplex, overwriting a previous 100M full duplex. -/
theorem C7_speed_duplex_fallback_witness :
    (PHY_KSZ8041_GetLinkSpeedDuplex ksz8041Defs ⟨1, constMdio 0 0 0⟩
      phy_speed_t.kPHY_Speed100M phy_duplex_t.kPHY_FullDuplex []).duplex =
        phy_duplex_t.kPHY_HalfDuplex ∧
    (PHY_KSZ8041_GetLinkSpeedDuplex ksz8041Defs ⟨1, constMdio 0 0 0⟩
      phy_speed_t.kPHY_Speed100M phy_duplex_t.kPHY_FullDuplex []).speed =
        phy_speed_t.kPHY_Speed10M :=
  (C7_speed_duplex_fallback ksz8041Defs ⟨1, constMdio 0 0 0⟩ phy_speed_t.kPHY_Speed100M
    phy_duplex_t.kPHY_FullDuplex [] 0 rfl (by decide) (by decide) (by decide) (by decide)).2


/-- C8: PHY_KSZ8041_EnableLoopback with mode = local and enable = true issues
exactly one transaction, a write to the basic-control register at the handle's
address, and no read, and returns that write's status; the value written is
PHY_BCTL_SPEED0_MASK | PHY_BCTL_DUPLEX_MASK | PHY_BCTL_LOOP_MASK when speed =
100M and PHY_BCTL_DUPLEX_MASK | PHY_BCTL_LOOP_MASK otherwise, whatever the
transport holds: a bit is set in it only if it is set in one of these masks. -/
theorem C8_local_loopback_enable (c : PhyDefs) (handle : phy_handle_t) (speed : phy_speed_t)
    (log : List MdioEvent) :
    issued log (PHY_KSZ8041_EnableLoopback c handle phy_loop_t.kPHY_LocalLoop speed true log).2 =
      [MdioEvent.write handle.phyAddr c.PHY_BASICCONTROL_REG
        (if speed = phy_speed_t.kPHY_Speed100M then
          c.PHY_BCTL_SPEED0_MASK ||| c.PHY_BCTL_DUPLEX_MASK ||| c.PHY_BCTL_LOOP_MASK
        else c.PHY_BCTL_DUPLEX_MASK ||| c.PHY_BCTL_LOOP_MASK)] ∧
    readCount (issued log
      (PHY_KSZ8041_EnableLoopback c handle phy_loop_t.kPHY_LocalLoop speed true log).2) = 0 ∧
    writeCount (issued log
      (PHY_KSZ8041_EnableLoopback c handle phy_loop_t.kPHY_LocalLoop speed true log).2) = 1 ∧
    (PHY_KSZ8041_EnableLoopback c handle phy_loop_t.kPHY_LocalLoop speed true log).1 =
      handle.mdioHandle.write log handle.phyAddr c.PHY_BASICCONTROL_REG
        (if speed = phy_speed_t.kPHY_Speed100M then
          c.PHY_BCTL_SPEED0_MASK ||| c.PHY_BCTL_DUPLEX_MASK ||| c.PHY_BCTL_LOOP_MASK
        else c.PHY_BCTL_DUPLEX_MASK ||| c.PHY_BCTL_LOOP_MASK) ∧
    (∀ i, (c.PHY_BCTL_SPEED0_MASK ||| c.PHY_BCTL_DUPLEX_MASK ||| c.PHY_BCTL_LOOP_MASK).testBit i =
      (c.PHY_BCTL_SPEED0_MASK.testBit i || c.PHY_BCTL_DUPLEX_MASK.testBit i ||
        c.PHY_BCTL_LOOP_MASK.testBit i)) ∧
    (∀ i, (c.PHY_BCTL_DUPLEX_MASK ||| c.PHY_BCTL_LOOP_MASK).testBit i =
      (c.PHY_BCTL_DUPLEX_MASK.testBit i || c.PHY_BCTL_LOOP_MASK.testBit i)) := by
  have hrun : PHY_KSZ8041_EnableLoopback c handle phy_loop_t.kPHY_LocalLoop speed true log =
      (handle.mdioHandle.write log handle.phyAddr c.PHY_BASICCONTROL_REG
        (if speed = phy_speed_t.kPHY_Speed100M then
          c.PHY_BCTL_SPEED0_MASK ||| c.PHY_BCTL_DUPLEX_MASK ||| c.PHY_BCTL_LOOP_MASK
        else c.PHY_BCTL_DUPLEX_MASK ||| c.PHY_BCTL_LOOP_MASK),
       log ++ [MdioEvent.write handle.phyAddr c.PHY_BASICCONTROL_REG
        (if speed = phy_speed_t.kPHY_Speed100M then
          c.PHY_BCTL_SPEED0_MASK ||| c.PHY_BCTL_DUPLEX_MASK ||| c.PHY_BCTL_LOOP_MASK
        else c.PHY_BCTL_DUPLEX_MASK ||| c.PHY_BCTL_LOOP_MASK)]) := by
    simp [PHY_KSZ8041_EnableLoopback, MDIO_Write]
  rw [hrun]
  simp only [issued_append]
  refine ⟨trivial, by simp [readCount, isRead], by simp [writeCount, isWrite], trivial, ?_, ?_⟩
  · intro i; simp [Nat.testBit_lor]
  · intro i; simp [Nat.testBit_lor]

/-- C9: PHY_KSZ8041_EnableLoopback with mode = local and enable = false, for
every speed argument, when its read of the basic-control register succeeds
with value v: issues that read followed by one write to the same register with
value (v AND NOT PHY_BCTL_LOOP_MASK) OR PHY_BCTL_RESTART_AUTONEG_MASK, NOT
being the 32-bit complement, and returns the write's status. -/
theorem C9_local_loopback_disable (c : PhyDefs) (handle : phy_handle_t) (speed : phy_speed_t)
    (log : List MdioEvent) (v : Nat)
    (hread : handle.mdioHandle.read log handle.phyAddr c.PHY_BASICCONTROL_REG =
      (c.kStatus_Success, v)) :
    issued log
      (PHY_KSZ8041_EnableLoopback c handle phy_loop_t.kPHY_LocalLoop speed false log).2 =
      [MdioEvent.read handle.phyAddr c.PHY_BASICCONTROL_REG,
       MdioEvent.write handle.phyAddr c.PHY_BASICCONTROL_REG
        ((v &&& not32 c.PHY_BCTL_LOOP_MASK) ||| c.PHY_BCTL_RESTART_AUTONEG_MASK)] ∧
    (PHY_KSZ8041_EnableLoopback c handle phy_loop_t.kPHY_LocalLoop speed false log).1 =
      handle.mdioHandle.write (log ++ [MdioEvent.read handle.phyAddr c.PHY_BASICCONTROL_REG])
        handle.phyAddr c.PHY_BASICCONTROL_REG
        ((v &&& not32 c.PHY_BCTL_LOOP_MASK) ||| c.PHY_BCTL_RESTART_AUTONEG_MASK) ∧
    (∀ i, i < 32 →
      ((v &&& not32 c.PHY_BCTL_LOOP_MASK) ||| c.PHY_BCTL_RESTART_AUTONEG_MASK).testBit i =
        ((v.testBit i && !c.PHY_BCTL_LOOP_MASK.testBit i) ||
          c.PHY_BCTL_RESTART_AUTONEG_MASK.testBit i)) := by
  have hrun : PHY_KSZ8041_EnableLoopback c handle phy_loop_t.kPHY_LocalLoop speed false log =
      (handle.mdioHandle.write (log ++ [MdioEvent.read handle.phyAddr c.PHY_BASICCONTROL_REG])
        handle.phyAddr c.PHY_BASICCONTROL_REG
        ((v &&& not32 c.PHY_BCTL_LOOP_MASK) ||| c.PHY_BCTL_RESTART_AUTONEG_MASK),
       log ++ [MdioEvent.read handle.phyAddr c.PHY_BASICCONTROL_REG] ++
        [MdioEvent.write handle.phyAddr c.PHY_BASICCONTROL_REG
          ((v &&& not32 c.PHY_BCTL_LOOP_MASK) ||| c.PHY_BCTL_RESTART_AUTONEG_MASK)]) := by
    simp [PHY_KSZ8041_EnableLoopback, MDIO_Write, MDIO_Read, hread]
  rw [hrun]
  refine ⟨by simp [issued], rfl, ?_⟩
  intro i hi
  simp [Nat.testBit_lor, Nat.testBit_land, not32_testBit, hi]

/-- Witness for C9: with the basic-control register reading 0x6100 the value
written back is 0x2300. -/
theorem C9_local_loopback_disable_witness :
    issued []
      (PHY_KSZ8041_EnableLoopback ksz8041Defs ⟨2, constMdio 0 0x6100 0⟩
        phy_loop_t.kPHY_LocalLoop phy_speed_t.kPHY_Speed10M false []).2 =
      [MdioEvent.read 2 0, MdioEvent.write 2 0 0x2300] ∧
    (PHY_KSZ8041_EnableLoopback ksz8041Defs ⟨2, constMdio 0 0x6100 0⟩
        phy_loop_t.kPHY_LocalLoop phy_speed_t.kPHY_Speed10M false []).1 = 0 :=
  have h := C9_local_loopback_disable ksz8041Defs ⟨2, constMdio 0 0x6100 0⟩
    phy_speed_t.kPHY_Speed10M [] 0x6100 rfl
  ⟨h.1.trans (by decide), h.2.1.trans rfl⟩

/-- C10: PHY_KSZ8041_EnableLoopback with mode = remote, when its read of
control-register-1 succeeds with a 32-bit value v: issues that read followed
by one write to control-register-1, of v OR PHY_CTL1_REMOTELOOP_MASK when
enable = true and of v AND NOT PHY_CTL1_REMOTELOOP_MASK when enable = false,
and returns the write's status; every bit of the written value outside
PHY_CTL1_REMOTELOOP_MASK equals the corresponding bit of v, and every
transaction issued addresses control-register-1. -/
theorem C10_remote_loopback (c : PhyDefs) (handle : phy_handle_t) (speed : phy_speed_t)
    (enable : Bool) (log : List MdioEvent) (v : Nat)
    (hv : v < 2 ^ 32)
    (hread : handle.mdioHandle.read log handle.phyAddr c.PHY_CONTROL1_REG =
      (c.kStatus_Success, v)) :
    issued log
      (PHY_KSZ8041_EnableLoopback c handle phy_loop_t.kPHY_RemoteLoop speed enable log).2 =
      [MdioEvent.read handle.phyAddr c.PHY_CONTROL1_REG,
       MdioEvent.write handle.phyAddr c.PHY_CONTROL1_REG
        (if enable = true then v ||| c.PHY_CTL1_REMOTELOOP_MASK
         else v &&& not32 c.PHY_CTL1_REMOTELOOP_MASK)] ∧
    (PHY_KSZ8041_EnableLoopback c handle phy_loop_t.kPHY_RemoteLoop speed enable log).1 =
      handle.mdioHandle.write (log ++ [MdioEvent.read handle.phyAddr c.PHY_CONTROL1_REG])
        handle.phyAddr c.PHY_CONTROL1_REG
        (if enable = true then v ||| c.PHY_CTL1_REMOTELOOP_MASK
         else v &&& not32 c.PHY_CTL1_REMOTELOOP_MASK) ∧
    (∀ i, c.PHY_CTL1_REMOTELOOP_MASK.testBit i = false →
      (if enable = true then v ||| c.PHY_CTL1_REMOTELOOP_MASK
        else v &&& not32 c.PHY_CTL1_REMOTELOOP_MASK).testBit i = v.testBit i) ∧
    (∀ i, c.PHY_CTL1_REMOTELOOP_MASK.testBit i = true →
      (if enable = true then v ||| c.PHY_CTL1_REMOTELOOP_MASK
        else v &&& not32 c.PHY_CTL1_REMOTELOOP_MASK).testBit i = enable) ∧
    (∀ e, e ∈ issued log
        (PHY_KSZ8041_EnableLoopback c handle phy_loop_t.kPHY_RemoteLoop speed enable log).2 →
      eventReg e = some c.PHY_CONTROL1_REG) := by
  have hrun : PHY_KSZ8041_EnableLoopback c handle phy_loop_t.kPHY_RemoteLoop speed enable log =
      (handle.mdioHandle.write (log ++ [MdioEvent.read handle.phyAddr c.PHY_CONTROL1_REG])
        handle.phyAddr c.PHY_CONTROL1_REG
        (if enable = true then v ||| c.PHY_CTL1_REMOTELOOP_MASK
         else v &&& not32 c.PHY_CTL1_REMOTELOOP_MASK),
       log ++ [MdioEvent.read handle.phyAddr c.PHY_CONTROL1_REG] ++
        [MdioEvent.write handle.phyAddr c.PHY_CONTROL1_REG
          (if enable = true then v ||| c.PHY_CTL1_REMOTELOOP_MASK
           else v &&& not32 c.PHY_CTL1_REMOTELOOP_MASK)]) := by
    cases enable <;> simp [PHY_KSZ8041_EnableLoopback, MDIO_Write, MDIO_Read, hread]
  rw [hrun]
  have hissued : issued log (log ++ [MdioEvent.read handle.phyAddr c.PHY_CONTROL1_REG] ++
        [MdioEvent.write handle.phyAddr c.PHY_CONTROL1_REG
          (if enable = true then v ||| c.PHY_CTL1_REMOTELOOP_MASK
           else v &&& not32 c.PHY_CTL1_REMOTELOOP_MASK)]) =
      [MdioEvent.read handle.phyAddr c.PHY_CONTROL1_REG,
       MdioEvent.write handle.phyAddr c.PHY_CONTROL1_REG
        (if enable = true then v ||| c.PHY_CTL1_REMOTELOOP_MASK
         else v &&& not32 c.PHY_CTL1_REMOTELOOP_MASK)] := by
    simp [issued]
  simp only [hissued]
  refine ⟨trivial, trivial, ?_, ?_, ?_⟩
  · intro i hi
    cases enable
    · by_cases h32 : i < 32
      · simp [Nat.testBit_land, not32_testBit, hi, h32]
      · have hlt : v < 2 ^ i :=
          Nat.lt_of_lt_of_le hv (Nat.pow_le_pow_right (by decide) (by omega))
        simp [Nat.testBit_land, Nat.testBit_lt_two_pow hlt]
    · simp [Nat.testBit_lor, hi]
  · intro i hi
    cases enable
    · simp [Nat.testBit_land, not32_testBit, hi]
    · simp [Nat.testBit_lor, hi]
  · intro e he
    simp only [List.mem_cons, List.mem_singleton, List.not_mem_nil, or_false] at he
    rcases he with he | he <;> subst he <;> rfl

/-- Witness for C10: enabling remote loopback over a control-register-1 reading
0x00F1 writes 0x00F9, and disabling it writes 0x00F1. -/
theorem C10_remote_loopback_witness :
    issued []
      (PHY_KSZ8041_EnableLoopback ksz8041Defs ⟨2, constMdio 0 0xF1 0⟩
        phy_loop_t.kPHY_RemoteLoop phy_speed_t.kPHY_Speed100M true []).2 =
      [MdioEvent.read 2 0x1E, MdioEvent.write 2 0x1E 0xF9] ∧
    issued []
      (PHY_KSZ8041_EnableLoopback ksz8041Defs ⟨2, constMdio 0 0xF9 0⟩
        phy_loop_t.kPHY_RemoteLoop phy_speed_t.kPHY_Speed100M false []).2 =
      [MdioEvent.read 2 0x1E, MdioEvent.write 2 0x1E 0xF1] :=
  ⟨(C10_remote_loopback ksz8041Defs ⟨2, constMdio 0 0xF1 0⟩ phy_speed_t.kPHY_Speed100M true
      [] 0xF1 (by decide) rfl).1.trans (by decide),
   (C10_remote_loopback ksz8041Defs ⟨2, constMdio 0 0xF9 0⟩ phy_speed_t.kPHY_Speed100M false
      [] 0xF9 (by decide) rfl).1.trans (by decide)⟩

/-! ## Claims, continued -/

/-- C11: in each of the three read-modify-write paths of
PHY_KSZ8041_EnableLoopback (local disable, remote enable, remote disable, that
is every path but local enable), if the read returns a status other than
kStatus_Success then the read is the only transaction issued, no write is
issued, and the function returns the read's status. -/
theorem C11_loopback_read_failure (c : PhyDefs) (handle : phy_handle_t) (mode : phy_loop_t)
    (speed : phy_speed_t) (enable : Bool) (log : List MdioEvent)
    (hpath : ¬ (mode = phy_loop_t.kPHY_LocalLoop ∧ enable = true))
    (hfail : (handle.mdioHandle.read log handle.phyAddr
      (if mode = phy_loop_t.kPHY_LocalLoop then c.PHY_BASICCONTROL_REG
        else c.PHY_CONTROL1_REG)).1 ≠ c.kStatus_Success) :
    (PHY_KSZ8041_EnableLoopback c handle mode speed enable log).1 =
      (handle.mdioHandle.read log handle.phyAddr
        (if mode = phy_loop_t.kPHY_LocalLoop then c.PHY_BASICCONTROL_REG
          else c.PHY_CONTROL1_REG)).1 ∧
    issued log (PHY_KSZ8041_EnableLoopback c handle mode speed enable log).2 =
      [MdioEvent.read handle.phyAddr
        (if mode = phy_loop_t.kPHY_LocalLoop then c.PHY_BASICCONTROL_REG
          else c.PHY_CONTROL1_REG)] ∧
    writeCount (issued log (PHY_KSZ8041_EnableLoopback c handle mode speed enable log).2) = 0 := by
  cases mode <;> cases enable <;>
    simp_all [PHY_KSZ8041_EnableLoopback, MDIO_Read, issued, writeCount, isWrite]

/-- Witness for C11 on a transport whose reads fail with status 9: disabling
local loopback returns 9 after the single read. -/
theorem C11_loopback_read_failure_witness :
    (PHY_KSZ8041_EnableLoopback ksz8041Defs ⟨4, constMdio 9 0 0⟩ phy_loop_t.kPHY_LocalLoop
      phy_speed_t.kPHY_Speed100M false []).1 = 9 ∧
    issued [] (PHY_KSZ8041_EnableLoopback ksz8041Defs ⟨4, constMdio 9 0 0⟩
      phy_loop_t.kPHY_LocalLoop phy_speed_t.kPHY_Speed100M false []).2 =
      [MdioEvent.read 4 0] :=
  have h := C11_loopback_read_failure ksz8041Defs ⟨4, constMdio 9 0 0⟩
    phy_loop_t.kPHY_LocalLoop phy_speed_t.kPHY_Speed100M false [] (by decide) (by decide)
  ⟨h.1.trans rfl, h.2.1.trans rfl⟩

/-- C12: for every register number and value, without any range check,
PHY_KSZ8041_Write issues exactly one transaction, the write (handle address,
register, value), and returns the transport's status unchanged;
PHY_KSZ8041_Read issues exactly one transaction, the read (handle address,
register), and returns the transport's status and the value it read
unchanged. -/
theorem C12_raw_register_access (handle : phy_handle_t) (phyReg data : Nat)
    (log : List MdioEvent) :
    (PHY_KSZ8041_Write handle phyReg data log).1 =
      handle.mdioHandle.write log handle.phyAddr phyReg data ∧
    issued log (PHY_KSZ8041_Write handle phyReg data log).2 =
      [MdioEvent.write handle.phyAddr phyReg data] ∧
    (PHY_KSZ8041_Read handle phyReg log).1 =
      (handle.mdioHandle.read log handle.phyAddr phyReg).1 ∧
    (PHY_KSZ8041_Read handle phyReg log).2.1 =
      (handle.mdioHandle.read log handle.phyAddr phyReg).2 ∧
    issued log (PHY_KSZ8041_Read handle phyReg log).2.2 =
      [MdioEvent.read handle.phyAddr phyReg] := by
  simp [PHY_KSZ8041_Write, PHY_KSZ8041_Read, MDIO_Write, MDIO_Read, issued]

/-- Every transaction of a run of Init after `MDIO_Init` is sent to `addr`. -/
theorem initTrace_addr (c : PhyDefs) (addr n j k : Nat) :
    ∃ rest, initTrace c addr n j k = MdioEvent.init :: rest ∧
      ∀ e, e ∈ rest → eventAddr e = some addr := by
  refine ⟨List.replicate n (idRead c addr) ++ (initWrites c addr).take j ++
    List.replicate k (bsRead c addr), by simp [initTrace], ?_⟩
  intro e he
  simp only [List.mem_append, List.mem_replicate] at he
  rcases he with (⟨_, he⟩ | he) | ⟨_, he⟩
  · subst he; rfl
  · have hmem := List.mem_of_mem_take he
    simp only [initWrites, List.mem_cons, List.mem_singleton, List.not_mem_nil, or_false] at hmem
    rcases hmem with h | h | h <;> subst h <;> rfl
  · subst he; rfl

/-- PHY_KSZ8041_GetLinkStatus issues one read of the basic-status register,
whatever the transport answers. -/
theorem getLinkStatus_log (c : PhyDefs) (handle : phy_handle_t) (status0 : Bool)
    (log : List MdioEvent) :
    (PHY_KSZ8041_GetLinkStatus c handle status0 log).log =
      log ++ [MdioEvent.read handle.phyAddr c.PHY_BASICSTATUS_REG] := by
  unfold PHY_KSZ8041_GetLinkStatus MDIO_Read
  simp only
  split_ifs <;> rfl

/-- PHY_KSZ8041_GetLinkSpeedDuplex issues one read of control-register-2,
whatever the transport answers. -/
theorem getLinkSpeedDuplex_log (c : PhyDefs) (handle : phy_handle_t) (speed0 : phy_speed_t)
    (duplex0 : phy_duplex_t) (log : List MdioEvent) :
    (PHY_KSZ8041_GetLinkSpeedDuplex c handle speed0 duplex0 log).log =
      log ++ [MdioEvent.read handle.phyAddr c.PHY_CONTROL2_REG] := by
  unfold PHY_KSZ8041_GetLinkSpeedDuplex MDIO_Read
  simp only
  split_ifs <;> rfl

/-- Every transaction PHY_KSZ8041_EnableLoopback issues is sent to the
handle's address, whatever the transport answers. -/
theorem enableLoopback_addr (c : PhyDefs) (handle : phy_handle_t) (mode : phy_loop_t)
    (speed : phy_speed_t) (enable : Bool) (log : List MdioEvent) :
    ∀ e, e ∈ issued log (PHY_KSZ8041_EnableLoopback c handle mode speed enable log).2 →
      eventAddr e = some handle.phyAddr := by
  intro e he
  cases mode <;> cases enable <;>
    simp only [PHY_KSZ8041_EnableLoopback, MDIO_Read, MDIO_Write, if_true, if_false,
      Bool.false_eq_true, reduceCtorEq] at he
  all_goals
    split_ifs at he <;> simp [issued] at he <;>
      (first | (rcases he with he | he <;> subst he <;> rfl) | (subst he; rfl))

/-- C13: the handle's address is fixed by initialization.  PHY_KSZ8041_Init
leaves config->phyAddr in the handle on every outcome (the transport reference
unchanged), its first transaction is MDIO_Init and every register transaction
it issues is sent to config->phyAddr, and its outcome does not depend on the
address the handle held before.  PHY_KSZ8041_Write, Read, GetLinkStatus,
GetLinkSpeedDuplex and EnableLoopback send every transaction they issue to the
handle's address; they have no store through `handle` in the source, so their
embeddings return no new handle. -/
theorem C13_handle_address (c : PhyDefs) (handle : phy_handle_t) (config : phy_config_t)
    (log : List MdioEvent) :
    (PHY_KSZ8041_Init c handle config log).handle.phyAddr = config.phyAddr ∧
    (PHY_KSZ8041_Init c handle config log).handle.mdioHandle = handle.mdioHandle ∧
    (∃ rest, issued log (PHY_KSZ8041_Init c handle config log).log = MdioEvent.init :: rest ∧
      ∀ e, e ∈ rest → eventAddr e = some config.phyAddr) ∧
    (∀ before : Nat,
      PHY_KSZ8041_Init c ⟨before, handle.mdioHandle⟩ config log =
        PHY_KSZ8041_Init c handle config log) ∧
    (∀ phyReg data e, e ∈ issued log (PHY_KSZ8041_Write handle phyReg data log).2 →
      eventAddr e = some handle.phyAddr) ∧
    (∀ phyReg e, e ∈ issued log (PHY_KSZ8041_Read handle phyReg log).2.2 →
      eventAddr e = some handle.phyAddr) ∧
    (∀ status0 e, e ∈ issued log (PHY_KSZ8041_GetLinkStatus c handle status0 log).log →
      eventAddr e = some handle.phyAddr) ∧
    (∀ speed0 duplex0 e,
      e ∈ issued log (PHY_KSZ8041_GetLinkSpeedDuplex c handle speed0 duplex0 log).log →
      eventAddr e = some handle.phyAddr) ∧
    (∀ mode speed enable e,
      e ∈ issued log (PHY_KSZ8041_EnableLoopback c handle mode speed enable log).2 →
      eventAddr e = some handle.phyAddr) := by
  obtain ⟨hh, n, j, k, _, _, _, _, _, hlog⟩ := init_shape c handle config log
  refine ⟨?_, ?_, ?_, ?_, ?_, ?_, ?_, ?_, ?_⟩
  · rw [hh]; rfl
  · rw [hh]; rfl
  · rw [hlog, issued_append]
    exact initTrace_addr c config.phyAddr n j k
  · intro before; rfl
  · intro phyReg data e he
    simp [PHY_KSZ8041_Write, MDIO_Write, issued] at he
    subst he; rfl
  · intro phyReg e he
    simp [PHY_KSZ8041_Read, MDIO_Read, issued] at he
    subst he; rfl
  · intro status0 e he
    rw [getLinkStatus_log, issued_append] at he
    simp at he
    subst he; rfl
  · intro speed0 duplex0 e he
    rw [getLinkSpeedDuplex_log, issued_append] at he
    simp at he
    subst he; rfl
  · intro mode speed enable e he
    exact enableLoopback_addr c handle mode speed enable log e he

/-- Witness for C13: a handle that held address 9 holds the configured address
3 after Init, and every register transaction of Init went to address 3. -/
theorem C13_handle_address_witness :
    (PHY_KSZ8041_Init ksz8041Defs ⟨9, constMdio 0 0 0⟩ ⟨3⟩ []).handle.phyAddr = 3 ∧
    ∃ rest, issued [] (PHY_KSZ8041_Init ksz8041Defs ⟨9, constMdio 0 0 0⟩ ⟨3⟩ []).log =
        MdioEvent.init :: rest ∧
      ∀ e, e ∈ rest → eventAddr e = some 3 :=
  have h := C13_handle_address ksz8041Defs ⟨9, constMdio 0 0 0⟩ ⟨3⟩ []
  ⟨h.1, h.2.2.1⟩

/-! ## Counting over the transactions of Init -/

theorem writeCount_take_initWrites (c : PhyDefs) (addr j : Nat) :
    List.countP isWrite ((initWrites c addr).take j) = min j 3 := by
  rcases j with _ | _ | _ | _ | j <;> simp [initWrites, isWrite]

theorem writeCount_initTrace (c : PhyDefs) (addr n j k : Nat) :
    writeCount (initTrace c addr n j k) = min j 3 := by
  simp only [writeCount, initTrace, List.countP_cons, List.countP_append,
    List.countP_replicate, writeCount_take_initWrites, idRead, bsRead, isWrite]
  simp

theorem readCountOf_take_initWrites (c : PhyDefs) (reg addr j : Nat) :
    List.countP (isReadOf reg) ((initWrites c addr).take j) = 0 := by
  rcases j with _ | _ | _ | _ | j <;> simp [initWrites, isReadOf]

theorem readCountOf_bs_initTrace (c : PhyDefs) (addr n j k : Nat)
    (hreg : c.PHY_ID1_REG ≠ c.PHY_BASICSTATUS_REG) :
    readCountOf c.PHY_BASICSTATUS_REG (initTrace c addr n j k) = k := by
  simp only [readCountOf, initTrace, List.countP_cons, List.countP_append,
    List.countP_replicate, readCountOf_take_initWrites, idRead, bsRead, isReadOf]
  simp [hreg]

theorem readCountOf_id_initTrace (c : PhyDefs) (addr n j k : Nat)
    (hreg : c.PHY_ID1_REG ≠ c.PHY_BASICSTATUS_REG) :
    readCountOf c.PHY_ID1_REG (initTrace c addr n j k) = n := by
  simp only [readCountOf, initTrace, List.countP_cons, List.countP_append,
    List.countP_replicate, readCountOf_take_initWrites, idRead, bsRead, isReadOf]
  simp [hreg.symm]

/-- C14: in PHY_KSZ8041_Init, once the identifier has been matched (after `n`
polls): if the reset write fails, Init returns that write's status and the
reset write is its last transaction; if the reset write succeeds and the
advertisement write fails, Init returns that status and the advertisement
write is its last transaction; if both succeed and the autonegotiation-enable
write fails, Init returns that status after the third write and issues no
basic-status read. -/
theorem C14_init_write_failures (c : PhyDefs) (handle : phy_handle_t) (config : phy_config_t)
    (log : List MdioEvent) (n : Nat)
    (hreg : c.PHY_ID1_REG ≠ c.PHY_BASICSTATUS_REG)
    (hf : IdFoundAfter c handle.mdioHandle config.phyAddr log n) :
    (resetWrite c handle.mdioHandle config.phyAddr log n ≠ c.kStatus_Success →
      (PHY_KSZ8041_Init c handle config log).status =
        resetWrite c handle.mdioHandle config.phyAddr log n ∧
      issued log (PHY_KSZ8041_Init c handle config log).log =
        MdioEvent.init :: List.replicate n (MdioEvent.read config.phyAddr c.PHY_ID1_REG) ++
          [MdioEvent.write config.phyAddr c.PHY_BASICCONTROL_REG c.PHY_BCTL_RESET_MASK] ∧
      writeCount (issued log (PHY_KSZ8041_Init c handle config log).log) = 1 ∧
      readCountOf c.PHY_BASICSTATUS_REG
        (issued log (PHY_KSZ8041_Init c handle config log).log) = 0) ∧
    (resetWrite c handle.mdioHandle config.phyAddr log n = c.kStatus_Success →
      advertiseWrite c handle.mdioHandle config.phyAddr log n ≠ c.kStatus_Success →
      (PHY_KSZ8041_Init c handle config log).status =
        advertiseWrite c handle.mdioHandle config.phyAddr log n ∧
      issued log (PHY_KSZ8041_Init c handle config log).log =
        MdioEvent.init :: List.replicate n (MdioEvent.read config.phyAddr c.PHY_ID1_REG) ++
          [MdioEvent.write config.phyAddr c.PHY_BASICCONTROL_REG c.PHY_BCTL_RESET_MASK,
           MdioEvent.write config.phyAddr c.PHY_AUTONEG_ADVERTISE_REG (advertiseValue c)] ∧
      writeCount (issued log (PHY_KSZ8041_Init c handle config log).log) = 2 ∧
      readCountOf c.PHY_BASICSTATUS_REG
        (issued log (PHY_KSZ8041_Init c handle config log).log) = 0) ∧
    (resetWrite c handle.mdioHandle config.phyAddr log n = c.kStatus_Success →
      advertiseWrite c handle.mdioHandle config.phyAddr log n = c.kStatus_Success →
      autoNegWrite c handle.mdioHandle config.phyAddr log n ≠ c.kStatus_Success →
      (PHY_KSZ8041_Init c handle config log).status =
        autoNegWrite c handle.mdioHandle config.phyAddr log n ∧
      issued log (PHY_KSZ8041_Init c handle config log).log =
        MdioEvent.init :: List.replicate n (MdioEvent.read config.phyAddr c.PHY_ID1_REG) ++
          [MdioEvent.write config.phyAddr c.PHY_BASICCONTROL_REG c.PHY_BCTL_RESET_MASK,
           MdioEvent.write config.phyAddr c.PHY_AUTONEG_ADVERTISE_REG (advertiseValue c),
           MdioEvent.write config.phyAddr c.PHY_BASICCONTROL_REG
             (c.PHY_BCTL_AUTONEG_MASK ||| c.PHY_BCTL_RESTART_AUTONEG_MASK)] ∧
      writeCount (issued log (PHY_KSZ8041_Init c handle config log).log) = 3 ∧
      readCountOf c.PHY_BASICSTATUS_REG
        (issued log (PHY_KSZ8041_Init c handle config log).log) = 0) := by
  refine ⟨?_, ?_, ?_⟩
  · intro hw1
    rw [init_reset_fails c handle config log n hf hw1, cfgLog_eq, issued_append]
    refine ⟨rfl, by simp [initTrace, initWrites, idRead], ?_, ?_⟩
    · rw [writeCount_initTrace]; rfl
    · exact readCountOf_bs_initTrace c _ n 1 0 hreg
  · intro hw1 hw2
    rw [init_advertise_fails c handle config log n hf hw1 hw2, cfgLog_eq, issued_append]
    refine ⟨rfl, by simp [initTrace, initWrites, idRead], ?_, ?_⟩
    · rw [writeCount_initTrace]; rfl
    · exact readCountOf_bs_initTrace c _ n 2 0 hreg
  · intro hw1 hw2 hw3
    rw [init_autoneg_write_fails c handle config log n hf hw1 hw2 hw3, cfgLog_eq, issued_append]
    refine ⟨rfl, by simp [initTrace, initWrites, idRead], ?_, ?_⟩
    · rw [writeCount_initTrace]; rfl
    · exact readCountOf_bs_initTrace c _ n 3 0 hreg

/-- Witness for C14 on a transport whose reads return the identifier and whose
writes fail with status 7. -/
theorem C14_init_write_failures_witness :
    IdFoundAfter ksz8041Defs (constMdio 0 0x22 7) 6 [] 1 ∧
    (PHY_KSZ8041_Init ksz8041Defs ⟨0, constMdio 0 0x22 7⟩ ⟨6⟩ []).status = 7 ∧
    writeCount (issued [] (PHY_KSZ8041_Init ksz8041Defs ⟨0, constMdio 0 0x22 7⟩ ⟨6⟩ []).log)
      = 1 :=
  have hf : IdFoundAfter ksz8041Defs (constMdio 0 0x22 7) 6 [] 1 := by
    refine ⟨by decide, ?_, ?_⟩
    · intro k hk
      have h0 : k = 0 := by omega
      subst h0
      simp [idRegAfter, ksz8041Defs]
    · simp [idRegAfter, idPoll, constMdio, ksz8041Defs]
  have h := (C14_init_write_failures ksz8041Defs ⟨0, constMdio 0 0x22 7⟩ ⟨6⟩ [] 1
    (by decide) hf).1 (by simp [resetWrite, constMdio, ksz8041Defs])
  ⟨hf, h.1.trans (by simp [resetWrite, constMdio]), h.2.2.1⟩

/-- C15: in every run of PHY_KSZ8041_Init that returns kStatus_Success (the
two failure codes of the headers being different from kStatus_Success), the
transactions issued are MDIO_Init, then `n` reads of the ID1 register, then
exactly three writes in this order: basic-control <- PHY_BCTL_RESET_MASK;
autonegotiation-advertisement <- (PHY_100BASETX_FULLDUPLEX_MASK |
PHY_100BASETX_HALFDUPLEX_MASK | PHY_10BASETX_FULLDUPLEX_MASK |
PHY_10BASETX_HALFDUPLEX_MASK | 0x1); basic-control <- (PHY_BCTL_AUTONEG_MASK |
PHY_BCTL_RESTART_AUTONEG_MASK); then `j + 1` reads of the basic-status
register.  So all ID1 reads precede the first write and all basic-status reads
follow the last write. -/
theorem C15_init_success_trace (c : PhyDefs) (handle : phy_handle_t) (config : phy_config_t)
    (log : List MdioEvent)
    (hfail : c.kStatus_Fail ≠ c.kStatus_Success)
    (hauto : c.kStatus_PHY_AutoNegotiateFail ≠ c.kStatus_Success)
    (hs : (PHY_KSZ8041_Init c handle config log).status = c.kStatus_Success) :
    ∃ n j, n < PHY_TIMEOUT_COUNT ∧ j < PHY_TIMEOUT_COUNT ∧
      issued log (PHY_KSZ8041_Init c handle config log).log =
        MdioEvent.init :: List.replicate n (MdioEvent.read config.phyAddr c.PHY_ID1_REG) ++
          [MdioEvent.write config.phyAddr c.PHY_BASICCONTROL_REG c.PHY_BCTL_RESET_MASK,
           MdioEvent.write config.phyAddr c.PHY_AUTONEG_ADVERTISE_REG
             (c.PHY_100BASETX_FULLDUPLEX_MASK ||| c.PHY_100BASETX_HALFDUPLEX_MASK |||
               c.PHY_10BASETX_FULLDUPLEX_MASK ||| c.PHY_10BASETX_HALFDUPLEX_MASK ||| 1),
           MdioEvent.write config.phyAddr c.PHY_BASICCONTROL_REG
             (c.PHY_BCTL_AUTONEG_MASK ||| c.PHY_BCTL_RESTART_AUTONEG_MASK)] ++
          List.replicate (j + 1) (MdioEvent.read config.phyAddr c.PHY_BASICSTATUS_REG) ∧
      (issued log (PHY_KSZ8041_Init c handle config log).log).filter isWrite =
        [MdioEvent.write config.phyAddr c.PHY_BASICCONTROL_REG c.PHY_BCTL_RESET_MASK,
         MdioEvent.write config.phyAddr c.PHY_AUTONEG_ADVERTISE_REG
           (c.PHY_100BASETX_FULLDUPLEX_MASK ||| c.PHY_100BASETX_HALFDUPLEX_MASK |||
             c.PHY_10BASETX_FULLDUPLEX_MASK ||| c.PHY_10BASETX_HALFDUPLEX_MASK ||| 1),
         MdioEvent.write config.phyAddr c.PHY_BASICCONTROL_REG
           (c.PHY_BCTL_AUTONEG_MASK ||| c.PHY_BCTL_RESTART_AUTONEG_MASK)] ∧
      writeCount (issued log (PHY_KSZ8041_Init c handle config log).log) = 3 := by
  rcases init_cases c handle config log with ⟨_, h⟩ | ⟨n, hf, h⟩
  · rw [h] at hs; exact absurd hs hfail
  · rcases h with ⟨hw, h⟩ | ⟨_, hw, h⟩ | ⟨_, _, hw, h⟩ | ⟨_, _, _, j, hj, _, _, h⟩ |
      ⟨_, _, _, _, h⟩
    · rw [h] at hs; exact absurd hs hw
    · rw [h] at hs; exact absurd hs hw
    · rw [h] at hs; exact absurd hs hw
    · refine ⟨n, j, hf.1, hj, ?_, ?_, ?_⟩
      · rw [h, bsLog_eq, issued_append]
        simp [initWrites, idRead, bsRead, advertiseValue]
      · rw [h, bsLog_eq_trace, issued_append]
        simp only [initTrace, List.filter_cons, List.filter_append, List.filter_replicate,
          idRead, bsRead, isWrite, initWrites, advertiseValue, List.take_succ_cons,
          List.take_zero, List.filter_nil]
        simp
      · rw [h, bsLog_eq_trace, issued_append, writeCount_initTrace]; rfl
    · rw [h] at hs; exact absurd hs hauto

/-- Witness for C15 on a transport where every transaction succeeds, the
identifier is read at once and autonegotiation is complete at the first poll. -/
theorem C15_init_success_trace_witness :
    (PHY_KSZ8041_Init ksz8041Defs ⟨0, lateAutoNegMdio ksz8041Defs 1⟩ ⟨2⟩ []).status =
      ksz8041Defs.kStatus_Success ∧
    writeCount (issued []
      (PHY_KSZ8041_Init ksz8041Defs ⟨0, lateAutoNegMdio ksz8041Defs 1⟩ ⟨2⟩ []).log) = 3 :=
  have hf : IdFoundAfter ksz8041Defs (lateAutoNegMdio ksz8041Defs 1) 2 [] 1 := by
    refine ⟨by decide, ?_, ?_⟩
    · intro k hk
      have h0 : k = 0 := by omega
      subst h0
      simp [idRegAfter, ksz8041Defs]
    · simp [idRegAfter, idPoll, lateAutoNegMdio]
  have hs : (PHY_KSZ8041_Init ksz8041Defs ⟨0, lateAutoNegMdio ksz8041Defs 1⟩ ⟨2⟩ []).status =
      ksz8041Defs.kStatus_Success := by
    rw [init_success ksz8041Defs ⟨0, lateAutoNegMdio ksz8041Defs 1⟩ ⟨2⟩ [] 1 0 hf
      (by simp [resetWrite, lateAutoNegMdio]) (by simp [advertiseWrite, lateAutoNegMdio])
      (by simp [autoNegWrite, lateAutoNegMdio]) (by decide) (by intro k hk; omega)
      (by simp [autoNegDone, bsPoll, lateAutoNegMdio, ksz8041Defs])]
  match C15_init_success_trace ksz8041Defs ⟨0, lateAutoNegMdio ksz8041Defs 1⟩ ⟨2⟩ []
    (by decide) (by decide) hs with
  | ⟨_, _, _, _, _, _, hw⟩ => ⟨hs, hw⟩

/-- C16: in PHY_KSZ8041_Init, after the identifier has been matched and the
three configuration writes have succeeded, for every k with 1 <= k <=
PHY_TIMEOUT_COUNT = 100000: if the k-th basic-status read is the first one that
succeeds with the PHY_BSTATUS_AUTONEGCOMP_MASK bit set, Init returns
kStatus_Success after exactly k basic-status reads; the boundary k = 100000 is
included. -/
theorem C16_init_autoneg_success_at (c : PhyDefs) (handle : phy_handle_t)
    (config : phy_config_t) (log : List MdioEvent) (n k : Nat)
    (hreg : c.PHY_ID1_REG ≠ c.PHY_BASICSTATUS_REG)
    (hf : IdFoundAfter c handle.mdioHandle config.phyAddr log n)
    (hw1 : resetWrite c handle.mdioHandle config.phyAddr log n = c.kStatus_Success)
    (hw2 : advertiseWrite c handle.mdioHandle config.phyAddr log n = c.kStatus_Success)
    (hw3 : autoNegWrite c handle.mdioHandle config.phyAddr log n = c.kStatus_Success)
    (hk1 : 1 ≤ k) (hk2 : k ≤ PHY_TIMEOUT_COUNT)
    (hbefore : ∀ i, i + 1 < k →
      ¬ autoNegDone c (bsPoll c handle.mdioHandle config.phyAddr log n i))
    (hdone : autoNegDone c (bsPoll c handle.mdioHandle config.phyAddr log n (k - 1))) :
    (PHY_KSZ8041_Init c handle config log).status = c.kStatus_Success ∧
    issued log (PHY_KSZ8041_Init c handle config log).log =
      MdioEvent.init :: List.replicate n (MdioEvent.read config.phyAddr c.PHY_ID1_REG) ++
        initWrites c config.phyAddr ++
        List.replicate k (MdioEvent.read config.phyAddr c.PHY_BASICSTATUS_REG) ∧
    readCountOf c.PHY_BASICSTATUS_REG (issued log (PHY_KSZ8041_Init c handle config log).log)
      = k ∧
    PHY_TIMEOUT_COUNT = 100000 := by
  have hk : k - 1 + 1 = k := by omega
  have hinit := init_success c handle config log n (k - 1) hf hw1 hw2 hw3 (by omega)
    (fun i hi => hbefore i (by omega)) hdone
  rw [hk] at hinit
  rw [hinit]
  refine ⟨rfl, ?_, ?_, rfl⟩
  · rw [bsLog_eq, issued_append]; rfl
  · rw [bsLog_eq_trace, issued_append]
    exact readCountOf_bs_initTrace c _ n 3 k hreg

/-- The answers of `lateAutoNegMdio` to the basic-status polls of a run of Init
started on the empty history. -/
theorem lateAutoNegMdio_bsPoll (c : PhyDefs) (bsFrom addr n i : Nat)
    (hreg : c.PHY_ID1_REG ≠ c.PHY_BASICSTATUS_REG) :
    bsPoll c (lateAutoNegMdio c bsFrom) addr [] n i =
      if bsFrom ≤ i + 1 then (c.kStatus_Success, c.PHY_BSTATUS_AUTONEGCOMP_MASK)
      else (c.kStatus_Success, 0) := by
  simp only [bsPoll, lateAutoNegMdio, if_neg hreg.symm]
  rw [bsLog_eq_trace, List.nil_append, readCountOf_bs_initTrace c addr n 3 i hreg]

/-- Witness for C16 at the boundary k = PHY_TIMEOUT_COUNT: on a transport whose
basic-status register reports completion only at its 100000-th read, Init
returns kStatus_Success after exactly 100000 basic-status reads. -/
theorem C16_init_autoneg_success_at_witness :
    (∀ i, i + 1 < PHY_TIMEOUT_COUNT →
      ¬ autoNegDone ksz8041Defs
        (bsPoll ksz8041Defs (lateAutoNegMdio ksz8041Defs PHY_TIMEOUT_COUNT) 2 [] 1 i)) ∧
    autoNegDone ksz8041Defs
      (bsPoll ksz8041Defs (lateAutoNegMdio ksz8041Defs PHY_TIMEOUT_COUNT) 2 [] 1
        (PHY_TIMEOUT_COUNT - 1)) ∧
    (PHY_KSZ8041_Init ksz8041Defs ⟨0, lateAutoNegMdio ksz8041Defs PHY_TIMEOUT_COUNT⟩ ⟨2⟩
      []).status = ksz8041Defs.kStatus_Success ∧
    readCountOf ksz8041Defs.PHY_BASICSTATUS_REG (issued []
      (PHY_KSZ8041_Init ksz8041Defs ⟨0, lateAutoNegMdio ksz8041Defs PHY_TIMEOUT_COUNT⟩ ⟨2⟩
        []).log) = PHY_TIMEOUT_COUNT :=
  have hf : IdFoundAfter ksz8041Defs (lateAutoNegMdio ksz8041Defs PHY_TIMEOUT_COUNT) 2 [] 1 := by
    refine ⟨by decide, ?_, ?_⟩
    · intro k hk
      have h0 : k = 0 := by omega
      subst h0
      simp [idRegAfter, ksz8041Defs]
    · simp [idRegAfter, idPoll, lateAutoNegMdio]
  have hbefore : ∀ i, i + 1 < PHY_TIMEOUT_COUNT →
      ¬ autoNegDone ksz8041Defs
        (bsPoll ksz8041Defs (lateAutoNegMdio ksz8041Defs PHY_TIMEOUT_COUNT) 2 [] 1 i) := by
    intro i hi hd
    rw [lateAutoNegMdio_bsPoll ksz8041Defs PHY_TIMEOUT_COUNT 2 1 i (by decide),
      if_neg (by omega)] at hd
    exact hd.2 (by decide)
  have hdone : autoNegDone ksz8041Defs
      (bsPoll ksz8041Defs (lateAutoNegMdio ksz8041Defs PHY_TIMEOUT_COUNT) 2 [] 1
        (PHY_TIMEOUT_COUNT - 1)) := by
    rw [lateAutoNegMdio_bsPoll ksz8041Defs PHY_TIMEOUT_COUNT 2 1 (PHY_TIMEOUT_COUNT - 1)
      (by decide), if_pos (by unfold PHY_TIMEOUT_COUNT; omega)]
    exact ⟨rfl, by decide⟩
  have h := C16_init_autoneg_success_at ksz8041Defs
    ⟨0, lateAutoNegMdio ksz8041Defs PHY_TIMEOUT_COUNT⟩ ⟨2⟩ [] 1 PHY_TIMEOUT_COUNT (by decide)
    hf (by simp [resetWrite, lateAutoNegMdio]) (by simp [advertiseWrite, lateAutoNegMdio])
    (by simp [autoNegWrite, lateAutoNegMdio]) (by decide) (Nat.le_refl _) hbefore hdone
  ⟨hbefore, hdone, h.1, h.2.2.1⟩

/-! ## The loop counters -/

/-- The identification loop never decrements its counter below zero: the
counter it leaves is at most the initial one, and the initial counter is the
counter left plus the number of polls issued. -/
theorem idLoop_counter (c : PhyDefs) (h : phy_handle_t) :
    ∀ (n idReg : Nat) (log : List MdioEvent),
      (idLoop c h n idReg log).counter ≤ n ∧
      (idLoop c h n idReg log).log.length + (idLoop c h n idReg log).counter =
        log.length + n := by
  intro n
  induction n with
  | zero => intro idReg log; simp [idLoop]
  | succ n ih =>
    intro idReg log
    by_cases hne : idReg = c.PHY_CONTROL_ID1
    · subst hne
      rw [idLoop_match]
      exact ⟨Nat.le_refl _, rfl⟩
    · rw [idLoop_step c h n idReg log hne]
      have h1 := ih (h.mdioHandle.read log h.phyAddr c.PHY_ID1_REG).2
        (log ++ [idRead c h.phyAddr])
      refine ⟨Nat.le_succ_of_le h1.1, ?_⟩
      rw [h1.2]
      simp only [List.length_append, List.length_singleton]
      omega

/-- The autonegotiation loop started with a positive counter never evaluates
its condition at zero: the counter it leaves is below the initial one, so the
post-decrement does not wrap. -/
theorem autoNegLoop_counter (c : PhyDefs) (h : phy_handle_t) :
    ∀ (n : Nat) (r : Int) (log : List MdioEvent),
      (autoNegLoop c h (n + 1) r log).counter ≤ n := by
  intro n
  induction n with
  | zero =>
    intro r log
    by_cases hd : autoNegDone c (h.mdioHandle.read log h.phyAddr c.PHY_BASICSTATUS_REG)
    · rw [autoNegLoop_done c h 0 r log hd]
    · rw [autoNegLoop_last c h r log hd]
  | succ n ih =>
    intro r log
    by_cases hd : autoNegDone c (h.mdioHandle.read log h.phyAddr c.PHY_BASICSTATUS_REG)
    · rw [autoNegLoop_done c h (n + 1) r log hd]
    · rw [autoNegLoop_step c h n r log hd]
      exact Nat.le_succ_of_le (ih r _)

/-- C17: for every transport behaviour PHY_KSZ8041_Init (a total function)
ends having issued at most PHY_TIMEOUT_COUNT = 100000 reads of the ID1
register, at most 3 writes and at most 100000 reads of the basic-status
register; and neither polling loop's counter wraps below zero: the
identification loop leaves a counter of at most 100000, equal to 100000 minus
the polls it issued, and the autonegotiation loop leaves a counter below
100000 (never 2^32 - 1). -/
theorem C17_init_bounded (c : PhyDefs) (handle : phy_handle_t) (config : phy_config_t)
    (log : List MdioEvent)
    (hreg : c.PHY_ID1_REG ≠ c.PHY_BASICSTATUS_REG) :
    readCountOf c.PHY_ID1_REG (issued log (PHY_KSZ8041_Init c handle config log).log) ≤
      PHY_TIMEOUT_COUNT ∧
    writeCount (issued log (PHY_KSZ8041_Init c handle config log).log) ≤ 3 ∧
    readCountOf c.PHY_BASICSTATUS_REG (issued log (PHY_KSZ8041_Init c handle config log).log) ≤
      PHY_TIMEOUT_COUNT ∧
    PHY_TIMEOUT_COUNT = 100000 ∧
    (∀ (h : phy_handle_t) (idReg : Nat) (log1 : List MdioEvent),
      (idLoop c h PHY_TIMEOUT_COUNT idReg log1).counter ≤ PHY_TIMEOUT_COUNT ∧
      (idLoop c h PHY_TIMEOUT_COUNT idReg log1).log.length +
        (idLoop c h PHY_TIMEOUT_COUNT idReg log1).counter = log1.length + PHY_TIMEOUT_COUNT) ∧
    (∀ (h : phy_handle_t) (r : Int) (log1 : List MdioEvent),
      (autoNegLoop c h PHY_TIMEOUT_COUNT r log1).counter < PHY_TIMEOUT_COUNT ∧
      (autoNegLoop c h PHY_TIMEOUT_COUNT r log1).counter ≠ 4294967295) := by
  obtain ⟨_, n, j, k, hn, hj, hk, _, _, hlog⟩ := init_shape c handle config log
  rw [hlog, issued_append, readCountOf_id_initTrace c _ n j k hreg, writeCount_initTrace,
    readCountOf_bs_initTrace c _ n j k hreg]
  refine ⟨hn, Nat.min_le_right _ _, hk, rfl, ?_, ?_⟩
  · intro h idReg log1
    exact idLoop_counter c h PHY_TIMEOUT_COUNT idReg log1
  · intro h r log1
    have h1 : PHY_TIMEOUT_COUNT = PHY_TIMEOUT_COUNT - 1 + 1 := by
      unfold PHY_TIMEOUT_COUNT; omega
    have h2 := autoNegLoop_counter c h (PHY_TIMEOUT_COUNT - 1) r log1
    rw [← h1] at h2
    have h3 : PHY_TIMEOUT_COUNT - 1 < PHY_TIMEOUT_COUNT := by
      unfold PHY_TIMEOUT_COUNT; omega
    have h4 : PHY_TIMEOUT_COUNT < 4294967295 := by unfold PHY_TIMEOUT_COUNT; omega
    exact ⟨Nat.lt_of_le_of_lt h2 h3, by omega⟩

/-- Witness for C17 on a transport whose every read returns 0 and never
matches the identifier. -/
theorem C17_init_bounded_witness :
    ksz8041Defs.PHY_ID1_REG ≠ ksz8041Defs.PHY_BASICSTATUS_REG ∧
    readCountOf ksz8041Defs.PHY_ID1_REG
      (issued [] (PHY_KSZ8041_Init ksz8041Defs ⟨0, constMdio 0 0 0⟩ ⟨1⟩ []).log) ≤
      PHY_TIMEOUT_COUNT ∧
    writeCount (issued [] (PHY_KSZ8041_Init ksz8041Defs ⟨0, constMdio 0 0 0⟩ ⟨1⟩ []).log) ≤ 3 :=
  have h := C17_init_bounded ksz8041Defs ⟨0, constMdio 0 0 0⟩ ⟨1⟩ [] (by decide)
  ⟨by decide, h.1, h.2.1⟩

/-- C18 (refuted as stated): on a transport whose read of the ID1 register
fails with the error status 4100 but leaves the identifier in `*dataPtr`, the
failed read is not one more unsuccessful poll: it is the only ID1 read, it is
taken as a match, and PHY_KSZ8041_Init goes on to the three writes and returns
kStatus_Success. -/
theorem C18_failed_id_read_taken_as_match :
    (idPoll ksz8041Defs (failedIdMdio ksz8041Defs 4100) 0 [] 0).1 = 4100 ∧
    (4100 : Int) ≠ ksz8041Defs.kStatus_Success ∧
    (PHY_KSZ8041_Init ksz8041Defs ⟨0, failedIdMdio ksz8041Defs 4100⟩ ⟨0⟩ []).status =
      ksz8041Defs.kStatus_Success ∧
    (PHY_KSZ8041_Init ksz8041Defs ⟨0, failedIdMdio ksz8041Defs 4100⟩ ⟨0⟩ []).log =
      [MdioEvent.init, MdioEvent.read 0 2, MdioEvent.write 0 0 0x8000,
        MdioEvent.write 0 4 0x1E1, MdioEvent.write 0 0 0x1200, MdioEvent.read 0 1] ∧
    readCountOf ksz8041Defs.PHY_ID1_REG
      (PHY_KSZ8041_Init ksz8041Defs ⟨0, failedIdMdio ksz8041Defs 4100⟩ ⟨0⟩ []).log = 1 := by
  have hf : IdFoundAfter ksz8041Defs (failedIdMdio ksz8041Defs 4100) 0 [] 1 := by
    refine ⟨by decide, ?_, ?_⟩
    · intro k hk
      have h0 : k = 0 := by omega
      subst h0
      simp [idRegAfter, ksz8041Defs]
    · simp [idRegAfter, idPoll, failedIdMdio]
  have hinit := init_success ksz8041Defs ⟨0, failedIdMdio ksz8041Defs 4100⟩ ⟨0⟩ [] 1 0 hf
    (by simp [resetWrite, failedIdMdio]) (by simp [advertiseWrite, failedIdMdio])
    (by simp [autoNegWrite, failedIdMdio]) (by decide) (by intro k hk; omega)
    (by simp [autoNegDone, bsPoll, failedIdMdio, ksz8041Defs])
  have hlog : bsLog ksz8041Defs 0 [] 1 (0 + 1) =
      [MdioEvent.init, MdioEvent.read 0 2, MdioEvent.write 0 0 0x8000,
        MdioEvent.write 0 4 0x1E1, MdioEvent.write 0 0 0x1200, MdioEvent.read 0 1] := by
    simp [bsLog, cfgLog, idLog, initWrites, idRead, bsRead, advertiseValue, ksz8041Defs]
  refine ⟨?_, by decide, ?_, ?_, ?_⟩
  · simp [idPoll, failedIdMdio]
  · rw [hinit]
  · rw [hinit]; exact hlog
  · rw [hinit]
    simp only [hlog]
    decide

/-- C18 (amended): for every transport behaviour the value returned by
PHY_KSZ8041_Init is kStatus_Success, kStatus_Fail,
kStatus_PHY_AutoNegotiateFail, or the non-success status returned by one of
its three writes.  The status of a failed read never selects the return value:
Init returns the same value and issues the same transactions when the error
codes of failed reads are changed at will.  A failed basic-status read counts
as one more unsuccessful poll: it is followed by the next poll, or by
kStatus_PHY_AutoNegotiateFail when it was the last permitted one.  The status
of an ID1 read is ignored: every ID1 read consumes one poll and the loop goes
on from the value it left in `idReg`, so with polls remaining it ends as a
match when that value equals PHY_CONTROL_ID1, even if the read failed, and
polls again when it differs. -/
theorem C18_init_return_values (c : PhyDefs) (handle : phy_handle_t) (config : phy_config_t)
    (log : List MdioEvent) :
    ((PHY_KSZ8041_Init c handle config log).status = c.kStatus_Success ∨
      (PHY_KSZ8041_Init c handle config log).status = c.kStatus_Fail ∨
      (PHY_KSZ8041_Init c handle config log).status = c.kStatus_PHY_AutoNegotiateFail ∨
      ∃ n, IdFoundAfter c handle.mdioHandle config.phyAddr log n ∧
        (PHY_KSZ8041_Init c handle config log).status ≠ c.kStatus_Success ∧
        ((PHY_KSZ8041_Init c handle config log).status =
            resetWrite c handle.mdioHandle config.phyAddr log n ∨
          (PHY_KSZ8041_Init c handle config log).status =
            advertiseWrite c handle.mdioHandle config.phyAddr log n ∨
          (PHY_KSZ8041_Init c handle config log).status =
            autoNegWrite c handle.mdioHandle config.phyAddr log n)) ∧
    (∀ handle' : phy_handle_t,
      SameUpToReadErrors c handle.mdioHandle handle'.mdioHandle →
      (PHY_KSZ8041_Init c handle' config log).status =
        (PHY_KSZ8041_Init c handle config log).status ∧
      (PHY_KSZ8041_Init c handle' config log).log =
        (PHY_KSZ8041_Init c handle config log).log) ∧
    (∀ (counter : Nat) (r : Int) (log1 : List MdioEvent),
      (handle.mdioHandle.read log1 handle.phyAddr c.PHY_BASICSTATUS_REG).1 ≠ c.kStatus_Success →
      autoNegLoop c handle (counter + 1 + 1) r log1 =
        autoNegLoop c handle (counter + 1) r
          (log1 ++ [MdioEvent.read handle.phyAddr c.PHY_BASICSTATUS_REG]) ∧
      (autoNegLoop c handle 1 r log1).returned = some c.kStatus_PHY_AutoNegotiateFail) ∧
    (∀ (counter idReg : Nat) (log1 : List MdioEvent),
      idReg ≠ c.PHY_CONTROL_ID1 →
      idLoop c handle (counter + 1) idReg log1 =
        idLoop c handle counter (handle.mdioHandle.read log1 handle.phyAddr c.PHY_ID1_REG).2
          (log1 ++ [MdioEvent.read handle.phyAddr c.PHY_ID1_REG])) ∧
    (∀ (counter idReg : Nat) (log1 : List MdioEvent),
      idReg ≠ c.PHY_CONTROL_ID1 →
      (handle.mdioHandle.read log1 handle.phyAddr c.PHY_ID1_REG).2 = c.PHY_CONTROL_ID1 →
      idLoop c handle (counter + 1 + 1) idReg log1 =
        { idReg := c.PHY_CONTROL_ID1, counter := counter + 1,
          log := log1 ++ [MdioEvent.read handle.phyAddr c.PHY_ID1_REG] }) ∧
    (∀ (counter idReg : Nat) (log1 : List MdioEvent),
      idReg ≠ c.PHY_CONTROL_ID1 →
      (handle.mdioHandle.read log1 handle.phyAddr c.PHY_ID1_REG).2 ≠ c.PHY_CONTROL_ID1 →
      idLoop c handle (counter + 1 + 1) idReg log1 =
        idLoop c handle counter
          (handle.mdioHandle.read (log1 ++ [MdioEvent.read handle.phyAddr c.PHY_ID1_REG])
            handle.phyAddr c.PHY_ID1_REG).2
          (log1 ++ [MdioEvent.read handle.phyAddr c.PHY_ID1_REG] ++
            [MdioEvent.read handle.phyAddr c.PHY_ID1_REG])) := by
  refine ⟨?_, ?_, ?_, ?_, ?_, ?_⟩
  · rcases init_cases c handle config log with ⟨_, h⟩ | ⟨n, hf, h⟩
    · exact Or.inr (Or.inl (by rw [h]))
    · rcases h with ⟨h1, h⟩ | ⟨_, h2, h⟩ | ⟨_, _, h3, h⟩ | ⟨_, _, _, j, _, _, _, h⟩ |
        ⟨_, _, _, _, h⟩
      · exact Or.inr (Or.inr (Or.inr ⟨n, hf, by rw [h]; exact h1, Or.inl (by rw [h])⟩))
      · exact Or.inr (Or.inr (Or.inr ⟨n, hf, by rw [h]; exact h2,
          Or.inr (Or.inl (by rw [h]))⟩))
      · exact Or.inr (Or.inr (Or.inr ⟨n, hf, by rw [h]; exact h3,
          Or.inr (Or.inr (by rw [h]))⟩))
      · exact Or.inl (by rw [h])
      · exact Or.inr (Or.inr (Or.inl (by rw [h])))
  · intro handle' hs
    exact init_congr c handle handle' config log hs
  · intro counter r log1 hfail
    have hd : ¬ autoNegDone c
        (handle.mdioHandle.read log1 handle.phyAddr c.PHY_BASICSTATUS_REG) :=
      fun hd => hfail hd.1
    refine ⟨autoNegLoop_step c handle counter r log1 hd, ?_⟩
    rw [autoNegLoop_last c handle r log1 hd]
  · intro counter idReg log1 hne
    rw [idLoop_step c handle counter idReg log1 hne]
    rfl
  · intro counter idReg log1 hne hval
    rw [idLoop_step c handle (counter + 1) idReg log1 hne, hval, idLoop_match]
    rfl
  · intro counter idReg log1 hne hval
    rw [idLoop_step c handle (counter + 1) idReg log1 hne,
      idLoop_step c handle counter _ _ hval]
    rfl

/-- Witness for C18 (amended): changing the error code of the failed first read
from 4100 to 77 changes neither the status Init returns nor its transactions. -/
theorem C18_init_return_values_witness :
    SameUpToReadErrors ksz8041Defs (flakyMdio ksz8041Defs 4100) (flakyMdio ksz8041Defs 77) ∧
    (PHY_KSZ8041_Init ksz8041Defs ⟨0, flakyMdio ksz8041Defs 77⟩ ⟨0⟩ []).status =
      (PHY_KSZ8041_Init ksz8041Defs ⟨0, flakyMdio ksz8041Defs 4100⟩ ⟨0⟩ []).status :=
  have hs : SameUpToReadErrors ksz8041Defs (flakyMdio ksz8041Defs 4100)
      (flakyMdio ksz8041Defs 77) := by
    refine ⟨fun _ _ _ _ => rfl, ?_, ?_⟩
    · intro log a r
      simp only [flakyMdio]
      split_ifs <;> rfl
    · intro log a r
      simp only [flakyMdio]
      split_ifs <;> simp [ksz8041Defs]
  ⟨hs, ((C18_init_return_values ksz8041Defs ⟨0, flakyMdio ksz8041Defs 4100⟩ ⟨0⟩ []).2.1
    ⟨0, flakyMdio ksz8041Defs 77⟩ hs).1⟩

/-! ## Loopback round trip on a storing transport -/

theorem regContent_append_write (prior : Nat → Nat → Nat) (log : List MdioEvent)
    (addr reg d : Nat) :
    regContent prior (log ++ [MdioEvent.write addr reg d]) addr reg = d := by
  simp [regContent, List.foldl_append]

theorem regContent_append_read (prior : Nat → Nat → Nat) (log : List MdioEvent)
    (addr reg a r : Nat) :
    regContent prior (log ++ [MdioEvent.read a r]) addr reg = regContent prior log addr reg := by
  simp [regContent, List.foldl_append]

/-- C19: over a transport that stores written values and returns them on later
reads, for every prior content of the registers and every prior history:
enabling local loopback at 100M and then disabling local loopback both return
kStatus_Success and leave the basic-control register equal to
((PHY_BCTL_SPEED0_MASK | PHY_BCTL_DUPLEX_MASK | PHY_BCTL_LOOP_MASK) AND NOT
PHY_BCTL_LOOP_MASK) OR PHY_BCTL_RESTART_AUTONEG_MASK.  The result is the same
for any other prior content and history, and a bit outside the speed-select,
duplex and restart-autonegotiation masks is clear afterwards even if it was
set before: prior bits are not restored. -/
theorem C19_local_loopback_round_trip (c : PhyDefs) (prior : Nat → Nat → Nat) (addr : Nat)
    (speed : phy_speed_t) (log : List MdioEvent) :
    (PHY_KSZ8041_EnableLoopback c ⟨addr, memMdio c prior⟩ phy_loop_t.kPHY_LocalLoop
      phy_speed_t.kPHY_Speed100M true log).1 = c.kStatus_Success ∧
    (PHY_KSZ8041_EnableLoopback c ⟨addr, memMdio c prior⟩ phy_loop_t.kPHY_LocalLoop speed false
      (PHY_KSZ8041_EnableLoopback c ⟨addr, memMdio c prior⟩ phy_loop_t.kPHY_LocalLoop
        phy_speed_t.kPHY_Speed100M true log).2).1 = c.kStatus_Success ∧
    regContent prior
      (PHY_KSZ8041_EnableLoopback c ⟨addr, memMdio c prior⟩ phy_loop_t.kPHY_LocalLoop speed false
        (PHY_KSZ8041_EnableLoopback c ⟨addr, memMdio c prior⟩ phy_loop_t.kPHY_LocalLoop
          phy_speed_t.kPHY_Speed100M true log).2).2 addr c.PHY_BASICCONTROL_REG =
      ((c.PHY_BCTL_SPEED0_MASK ||| c.PHY_BCTL_DUPLEX_MASK ||| c.PHY_BCTL_LOOP_MASK) &&&
        not32 c.PHY_BCTL_LOOP_MASK) ||| c.PHY_BCTL_RESTART_AUTONEG_MASK ∧
    (∀ (prior' : Nat → Nat → Nat) (log' : List MdioEvent),
      regContent prior'
        (PHY_KSZ8041_EnableLoopback c ⟨addr, memMdio c prior'⟩ phy_loop_t.kPHY_LocalLoop speed
          false
          (PHY_KSZ8041_EnableLoopback c ⟨addr, memMdio c prior'⟩ phy_loop_t.kPHY_LocalLoop
            phy_speed_t.kPHY_Speed100M true log').2).2 addr c.PHY_BASICCONTROL_REG =
      regContent prior
        (PHY_KSZ8041_EnableLoopback c ⟨addr, memMdio c prior⟩ phy_loop_t.kPHY_LocalLoop speed
          false
          (PHY_KSZ8041_EnableLoopback c ⟨addr, memMdio c prior⟩ phy_loop_t.kPHY_LocalLoop
            phy_speed_t.kPHY_Speed100M true log).2).2 addr c.PHY_BASICCONTROL_REG) ∧
    (∀ i, c.PHY_BCTL_SPEED0_MASK.testBit i = false → c.PHY_BCTL_DUPLEX_MASK.testBit i = false →
      c.PHY_BCTL_RESTART_AUTONEG_MASK.testBit i = false →
      (((c.PHY_BCTL_SPEED0_MASK ||| c.PHY_BCTL_DUPLEX_MASK ||| c.PHY_BCTL_LOOP_MASK) &&&
        not32 c.PHY_BCTL_LOOP_MASK) ||| c.PHY_BCTL_RESTART_AUTONEG_MASK).testBit i = false) := by
  have hen : ∀ (p : Nat → Nat → Nat) (l : List MdioEvent),
      PHY_KSZ8041_EnableLoopback c ⟨addr, memMdio c p⟩ phy_loop_t.kPHY_LocalLoop
        phy_speed_t.kPHY_Speed100M true l =
      (c.kStatus_Success, l ++ [MdioEvent.write addr c.PHY_BASICCONTROL_REG
        (c.PHY_BCTL_SPEED0_MASK ||| c.PHY_BCTL_DUPLEX_MASK ||| c.PHY_BCTL_LOOP_MASK)]) := by
    intro p l
    simp [PHY_KSZ8041_EnableLoopback, MDIO_Write, memMdio]
  have hdis : ∀ (p : Nat → Nat → Nat) (l : List MdioEvent),
      PHY_KSZ8041_EnableLoopback c ⟨addr, memMdio c p⟩ phy_loop_t.kPHY_LocalLoop speed false l =
      (c.kStatus_Success, l ++ [MdioEvent.read addr c.PHY_BASICCONTROL_REG] ++
        [MdioEvent.write addr c.PHY_BASICCONTROL_REG
          ((regContent p l addr c.PHY_BASICCONTROL_REG &&& not32 c.PHY_BCTL_LOOP_MASK) |||
            c.PHY_BCTL_RESTART_AUTONEG_MASK)]) := by
    intro p l
    simp [PHY_KSZ8041_EnableLoopback, MDIO_Write, MDIO_Read, memMdio]
  have hfinal : ∀ (p : Nat → Nat → Nat) (l : List MdioEvent),
      regContent p
        (PHY_KSZ8041_EnableLoopback c ⟨addr, memMdio c p⟩ phy_loop_t.kPHY_LocalLoop speed false
          (PHY_KSZ8041_EnableLoopback c ⟨addr, memMdio c p⟩ phy_loop_t.kPHY_LocalLoop
            phy_speed_t.kPHY_Speed100M true l).2).2 addr c.PHY_BASICCONTROL_REG =
      ((c.PHY_BCTL_SPEED0_MASK ||| c.PHY_BCTL_DUPLEX_MASK ||| c.PHY_BCTL_LOOP_MASK) &&&
        not32 c.PHY_BCTL_LOOP_MASK) ||| c.PHY_BCTL_RESTART_AUTONEG_MASK := by
    intro p l
    rw [hen, hdis]
    simp only []
    rw [regContent_append_write, regContent_append_write]
  refine ⟨?_, ?_, hfinal prior log, ?_, ?_⟩
  · rw [hen]
  · rw [hdis]
  · intro prior' log'
    rw [hfinal prior' log', hfinal prior log]
  · intro i h1 h2 h3
    simp only [Nat.testBit_lor, Nat.testBit_land, not32_testBit, h1, h2, h3]
    cases c.PHY_BCTL_LOOP_MASK.testBit i <;> simp

/-- Witness for C19: with autonegotiation enabled before (basic-control
register 0x1000), the register holds 0x2300 after the round trip. -/
theorem C19_local_loopback_round_trip_witness :
    regContent (fun _ _ => 0x1000)
      (PHY_KSZ8041_EnableLoopback ksz8041Defs ⟨1, memMdio ksz8041Defs (fun _ _ => 0x1000)⟩
        phy_loop_t.kPHY_LocalLoop phy_speed_t.kPHY_Speed100M false
        (PHY_KSZ8041_EnableLoopback ksz8041Defs ⟨1, memMdio ksz8041Defs (fun _ _ => 0x1000)⟩
          phy_loop_t.kPHY_LocalLoop phy_speed_t.kPHY_Speed100M true []).2).2 1
      ksz8041Defs.PHY_BASICCONTROL_REG = 0x2300 ∧
    (0x2300 : Nat).testBit 12 = false :=
  ⟨(C19_local_loopback_round_trip ksz8041Defs (fun _ _ => 0x1000) 1
      phy_speed_t.kPHY_Speed100M []).2.2.1.trans (by decide), by decide⟩

end KSZ8041
